import Mathlib

/-!
The solr-updater service: record store, document construction, index client,
handlers.

A shallow embedding of `services/solr-updater`:

* `internal/db/store.go`     : `GetBook`, `GetElectronic`, `GetAndUpdateBook`,
  `GetAndUpdateElectronic`
* `internal/solr/client.go`  : `UpdateDoc`
* `internal/api/handler.go`  : `HandleBook`, `HandleElectronic`, `respondJSON`,
  `respondError`

The relational store and the HTTP transport are external to the repository.
They are taken as an arbitrary `Backend`: step functions on an arbitrary state
type that answer each call.  Every call the repository code makes on them is
appended to a trace, so that "the index client is not called" and "exactly one
call" are statements about that trace.  Logger calls have no effect on the
store, the index or the response and are left out.
-/

namespace SolrSync

/-! ## Values -/

/-- A Go `float64`, carried as its IEEE-754 bit pattern.  The code only moves
prices from the row to the document, it never computes with them. -/
structure Float64 where
  bits : Nat
deriving DecidableEq, Repr

/-- The exponent field is not all ones: neither NaN nor an infinity. -/
def Float64.isFinite (f : Float64) : Bool :=
  (f.bits / 2 ^ 52) % 2 ^ 11 != 2047

/-- A value stored in a Go `map[string]any` by the handlers (and `nil`, which
a `map[string]any` could hold). -/
inductive Value where
  | null
  | str (s : String)
  | int (i : Int)
  | bool (b : Bool)
  | float (f : Float64)
  | strs (l : List String)
deriving DecidableEq, Repr

/-- A Go `map[string]any` literal, in the order the source writes its keys. -/
abbrev Doc := List (String × Value)

/-- The Go expression `m[key]` with the comma-ok form. -/
def Doc.get? (d : Doc) (key : String) : Option Value :=
  d.lookup key

/-- The keys of a map literal. -/
def Doc.keys (d : Doc) : List String :=
  d.map Prod.fst

/-- The verb `%d` of `fmt.Sprintf` on an `int64`: decimal, with a leading minus
sign for negative numbers. -/
def formatInt (i : Int) : String :=
  if i < 0 then "-" ++ Nat.repr i.natAbs else Nat.repr i.toNat

/-! ## Go errors -/

/-- Go `error` values as far as the code tells them apart: the sentinel
`sql.ErrNoRows`, an error carrying a message, and `fmt.Errorf("...: %w", err)`
around another error. -/
inductive GoError where
  | ErrNoRows
  | msg (text : String)
  | wrap (context : String) (inner : GoError)
deriving DecidableEq, Repr

/-- Equality of results is decidable when it is on both sides. -/
instance instDecidableEqExcept {ε α : Type} [DecidableEq ε] [DecidableEq α] :
    DecidableEq (Except ε α)
  | .ok a, .ok b => if h : a = b then isTrue (by rw [h]) else isFalse (by simp [h])
  | .error a, .error b => if h : a = b then isTrue (by rw [h]) else isFalse (by simp [h])
  | .ok _, .error _ => isFalse (by simp)
  | .error _, .ok _ => isFalse (by simp)

/-! ## strconv.ParseInt(s, 10, 64) -/

inductive NumError where
  | ErrSyntax
  | ErrRange
deriving DecidableEq, Repr

def maxUint64 : Nat := 2 ^ 64 - 1

/-- The digit loop of `strconv.ParseUint(s, 10, 64)` with accumulator `n`. -/
def parseUintLoop : List Char → Nat → Except NumError Nat
  | [], n => .ok n
  | c :: cs, n =>
    if '0' ≤ c ∧ c ≤ '9' then
      let d := c.toNat - '0'.toNat
      if n ≥ maxUint64 / 10 + 1 then .error .ErrRange
      else
        let n1 := n * 10 + d
        if n1 > maxUint64 then .error .ErrRange else parseUintLoop cs n1
    else .error .ErrSyntax

/-- Go `strconv.ParseUint(s, 10, 64)`. -/
def ParseUint (s : List Char) : Except NumError Nat :=
  match s with
  | [] => .error .ErrSyntax
  | _ => parseUintLoop s 0

/-- Go `strconv.ParseInt(s, 10, 64)`: an optional sign, then `ParseUint`, then
the signed range check.  On a range error `ParseUint` hands back the maximal
value, which the signed check rejects as well. -/
def ParseInt (s : String) : Except NumError Int :=
  match s.data with
  | [] => .error .ErrSyntax
  | c :: cs =>
    let neg := c == '-'
    let rest := if c == '+' ∨ c == '-' then cs else c :: cs
    match ParseUint rest with
    | .error .ErrSyntax => .error .ErrSyntax
    | r =>
      let un : Nat := match r with
        | .ok n => n
        | .error _ => maxUint64
      if !neg ∧ un ≥ 2 ^ 63 then .error .ErrRange
      else if neg ∧ un > 2 ^ 63 then .error .ErrRange
      else .ok (if neg then -(un : Int) else (un : Int))

/-! ## internal/db/store.go -/

structure Book where
  ID : Int
  Title : String
  Author : String
  Genre : String
  Price : Float64
  InStock : Bool
  ISBN : String
  Description : String
  UpdatedAt : Nat
deriving DecidableEq, Repr

structure Electronic where
  ID : Int
  Name : String
  Manufacturer : String
  Price : Float64
  InStock : Bool
  Specs : String
  Description : String
  UpdatedAt : Nat
deriving DecidableEq, Repr

/-- A row of table `books` as stored: `description` is the nullable text
column, `in_stock` the stored integer. -/
structure BookRow where
  id : Int
  title : String
  author : String
  genre : String
  price : Float64
  in_stock : Int
  isbn : String
  description : Option String
  updated_at : Nat
deriving DecidableEq, Repr

/-- A row of table `electronics` as stored: `specs` and `description` are the
nullable text columns. -/
structure ElectronicRow where
  id : Int
  name : String
  manufacturer : String
  price : Float64
  in_stock : Int
  specs : Option String
  description : Option String
  updated_at : Nat
deriving DecidableEq, Repr

/-- What the database answers to a single-row `SELECT ... WHERE id = ?`. -/
inductive RowResult (α : Type) where
  | failed (cause : String)
  | noRows
  | row (r : α)

/-- What the database answers to `ExecContext` followed by `RowsAffected`. -/
inductive ExecResult where
  | failed (cause : String)
  | rowsAffectedFailed (cause : String)
  | affected (rows : Int)

/-- What the transport answers to `httpClient.Do`: an error, or a response with
its status code and what `json.Decode` makes of its body (an error, or the
value left in `result.ResponseHeader.Status`). -/
inductive HttpResult where
  | failed (cause : String)
  | response (statusCode : Int) (decoded : Except String Int)

/-- The external collaborators: the database behind `*sql.DB`, the transport
behind `*http.Client`, and the URL check of `http.NewRequestWithContext`. -/
structure Backend (σ : Type) where
  queryBook : σ → Int → σ × RowResult BookRow
  queryElectronic : σ → Int → σ × RowResult ElectronicRow
  execBook : σ → String → Int → σ × ExecResult
  execElectronic : σ → String → Int → σ × ExecResult
  requestError : String → Option String
  roundTrip : σ → String → List Doc → σ × HttpResult

/-- Calls made by the repository code, in order. -/
inductive Event where
  | query (table : String) (id : Int)
  | exec (table : String) (description : String) (id : Int)
  | updateDoc (collection : String) (doc : Doc)
  | post (url : String) (payload : List Doc)
deriving DecidableEq, Repr

/-- The state threaded through the code: the collaborators and the trace. -/
structure World (σ : Type) where
  env : σ
  trace : List Event

/-- The SQL function `COALESCE(x, dflt)` on a nullable text column. -/
def COALESCE (x : Option String) (dflt : String) : String :=
  match x with
  | some v => v
  | none => dflt

/-- The conversion `Scan` applies for a `*uint8` destination: the stored
integer has to fit. -/
def scanUint8 (v : Int) : Except GoError Nat :=
  if 0 ≤ v ∧ v ≤ 255 then .ok v.toNat
  else .error (.msg "sql: Scan error on column in_stock: value out of range")

/-- The method `Store.GetBook`. -/
def GetBook {σ : Type} (B : Backend σ) (w : World σ) (id : Int) :
    Except GoError Book × World σ :=
  let q := B.queryBook w.env id
  let w1 : World σ := { env := q.1, trace := w.trace ++ [Event.query "books" id] }
  match q.2 with
  | .failed cause => (.error (.msg cause), w1)
  | .noRows => (.error .ErrNoRows, w1)
  | .row r =>
    match scanUint8 r.in_stock with
    | .error e => (.error e, w1)
    | .ok inStock =>
      (.ok { ID := r.id, Title := r.title, Author := r.author, Genre := r.genre,
             Price := r.price, InStock := inStock == 1, ISBN := r.isbn,
             Description := COALESCE r.description "",
             UpdatedAt := r.updated_at }, w1)

/-- The method `Store.GetElectronic`. -/
def GetElectronic {σ : Type} (B : Backend σ) (w : World σ) (id : Int) :
    Except GoError Electronic × World σ :=
  let q := B.queryElectronic w.env id
  let w1 : World σ := { env := q.1, trace := w.trace ++ [Event.query "electronics" id] }
  match q.2 with
  | .failed cause => (.error (.msg cause), w1)
  | .noRows => (.error .ErrNoRows, w1)
  | .row r =>
    match scanUint8 r.in_stock with
    | .error e => (.error e, w1)
    | .ok inStock =>
      (.ok { ID := r.id, Name := r.name, Manufacturer := r.manufacturer,
             Price := r.price, InStock := inStock == 1,
             Specs := COALESCE r.specs "\x7b\x7d",
             Description := COALESCE r.description "",
             UpdatedAt := r.updated_at }, w1)

/-- The method `Store.GetAndUpdateBook`; `timestamp` is
`time.Now().UTC().Format(time.RFC3339)`. -/
def GetAndUpdateBook {σ : Type} (B : Backend σ) (w : World σ) (timestamp : String)
    (id : Int) : Except GoError Book × World σ :=
  let newDescription := "Description added by solr-updater at " ++ timestamp
  let x := B.execBook w.env newDescription id
  let w1 : World σ :=
    { env := x.1, trace := w.trace ++ [Event.exec "books" newDescription id] }
  match x.2 with
  | .failed cause => (.error (.wrap "failed to update book" (.msg cause)), w1)
  | .rowsAffectedFailed cause =>
    (.error (.wrap "failed to get rows affected" (.msg cause)), w1)
  | .affected rows =>
    if rows = 0 then (.error .ErrNoRows, w1)
    else GetBook B w1 id

/-- The method `Store.GetAndUpdateElectronic`. -/
def GetAndUpdateElectronic {σ : Type} (B : Backend σ) (w : World σ)
    (timestamp : String) (id : Int) : Except GoError Electronic × World σ :=
  let newDescription := "Description added by solr-updater at " ++ timestamp
  let x := B.execElectronic w.env newDescription id
  let w1 : World σ :=
    { env := x.1, trace := w.trace ++ [Event.exec "electronics" newDescription id] }
  match x.2 with
  | .failed cause => (.error (.wrap "failed to update electronic" (.msg cause)), w1)
  | .rowsAffectedFailed cause =>
    (.error (.wrap "failed to get rows affected" (.msg cause)), w1)
  | .affected rows =>
    if rows = 0 then (.error .ErrNoRows, w1)
    else GetElectronic B w1 id

/-! ## internal/solr/client.go -/

structure Client where
  baseURL : String

/-- Whether `json.Marshal` accepts a value: it refuses NaN and infinities. -/
def Value.marshals : Value → Bool
  | .float f => f.isFinite
  | _ => true

/-- The call `json.Marshal(payload)` fails when some value is refused. -/
def marshalError (payload : List Doc) : Option GoError :=
  if payload.all (fun d => d.all (fun kv => kv.2.marshals)) then none
  else some (.msg "json: unsupported value")

/-- The method `Client.UpdateDoc`; `none` is the Go `nil` error. -/
def UpdateDoc {σ : Type} (B : Backend σ) (c : Client) (w : World σ)
    (collection : String) (doc : Doc) : Option GoError × World σ :=
  let w0 : World σ := { w with trace := w.trace ++ [Event.updateDoc collection doc] }
  let url := c.baseURL ++ "/" ++ collection ++ "/update?commit=true"
  let payload := [doc]
  match marshalError payload with
  | some e => (some (.wrap "failed to marshal document" e), w0)
  | none =>
    match B.requestError url with
    | some cause => (some (.wrap "failed to create request" (.msg cause)), w0)
    | none =>
      let r := B.roundTrip w0.env url payload
      let w1 : World σ := { env := r.1, trace := w0.trace ++ [Event.post url payload] }
      match r.2 with
      | .failed cause => (some (.wrap "failed to send request" (.msg cause)), w1)
      | .response statusCode decoded =>
        if statusCode ≠ 200 then
          (some (.msg ("solr returned status " ++ formatInt statusCode)), w1)
        else
          match decoded with
          | .error cause => (some (.wrap "failed to decode response" (.msg cause)), w1)
          | .ok status =>
            if status ≠ 0 then
              (some (.msg ("solr update failed with status " ++ formatInt status)), w1)
            else (none, w1)

/-! ## internal/api/handler.go -/

/-- What a handler writes to the `http.ResponseWriter`. -/
structure Response where
  contentType : String
  status : Nat
  body : Doc
deriving DecidableEq, Repr

def respondJSON (status : Nat) (data : Doc) : Response :=
  { contentType := "application/json", status := status, body := data }

def respondError (status : Nat) (message : String) : Response :=
  respondJSON status [("error", .str message)]

/-- The map literal of `HandleBook` (handler.go, lines 55-67). -/
def bookDoc (book : Book) : Doc :=
  [ ("id", .str ("book-" ++ formatInt book.ID)),
    ("sku", .str ("book-" ++ formatInt book.ID)),
    ("type_s", .str "book"),
    ("cat", .strs ["books"]),
    ("name", .str book.Title),
    ("author_s", .str book.Author),
    ("genre_s", .str book.Genre),
    ("price", .float book.Price),
    ("inStock", .bool book.InStock),
    ("isbn_s", .str book.ISBN),
    ("description", .str book.Description) ]

/-- The map literal of `HandleElectronic` (handler.go, lines 110-122). -/
def electronicDoc (electronic : Electronic) : Doc :=
  [ ("id", .str ("electronics-" ++ formatInt electronic.ID)),
    ("sku", .str ("electronics-" ++ formatInt electronic.ID)),
    ("type_s", .str "electronics"),
    ("cat", .strs ["electronics"]),
    ("name", .str electronic.Name),
    ("manu", .str electronic.Manufacturer),
    ("manufacturer_s", .str electronic.Manufacturer),
    ("price", .float electronic.Price),
    ("inStock", .bool electronic.InStock),
    ("description", .str electronic.Description),
    ("specs_txt", .str electronic.Specs) ]

/-- The method `Handler.HandleBook`; `idParam` is `chi.URLParam(r, "id")`. -/
def HandleBook {σ : Type} (B : Backend σ) (c : Client) (w : World σ)
    (idParam : String) : Response × World σ :=
  match ParseInt idParam with
  | .error _ => (respondError 400 "invalid id parameter", w)
  | .ok id =>
    match GetBook B w id with
    | (.error err, w1) =>
      if err = GoError.ErrNoRows then (respondError 404 "book not found", w1)
      else (respondError 500 "database error", w1)
    | (.ok book, w1) =>
      match UpdateDoc B c w1 "books" (bookDoc book) with
      | (some _, w2) => (respondError 502 "failed to update solr", w2)
      | (none, w2) =>
        (respondJSON 200
          [ ("resource", .str "books"),
            ("id", .int id),
            ("status", .str "synced"),
            ("message", .str ("Book " ++ formatInt id ++ " updated and synced to Solr")) ],
          w2)

/-- The method `Handler.HandleElectronic`. -/
def HandleElectronic {σ : Type} (B : Backend σ) (c : Client) (w : World σ)
    (idParam : String) : Response × World σ :=
  match ParseInt idParam with
  | .error _ => (respondError 400 "invalid id parameter", w)
  | .ok id =>
    match GetElectronic B w id with
    | (.error err, w1) =>
      if err = GoError.ErrNoRows then (respondError 404 "electronic not found", w1)
      else (respondError 500 "database error", w1)
    | (.ok electronic, w1) =>
      match UpdateDoc B c w1 "electronics" (electronicDoc electronic) with
      | (some _, w2) => (respondError 502 "failed to update solr", w2)
      | (none, w2) =>
        (respondJSON 200
          [ ("resource", .str "electronics"),
            ("id", .int id),
            ("status", .str "synced"),
            ("message",
              .str ("Electronic " ++ formatInt id ++ " updated and synced to Solr")) ],
          w2)

/-! ## Reading the trace -/

/-- The calls of `UpdateDoc` recorded in a trace, in order. -/
def updateDocCalls : List Event → List (String × Doc)
  | [] => []
  | Event.updateDoc collection doc :: es => (collection, doc) :: updateDocCalls es
  | _ :: es => updateDocCalls es

/-- The ids the store was queried with (`GetBook`, `GetElectronic`), in order. -/
def queriedIds : List Event → List Int
  | [] => []
  | Event.query _ id :: es => id :: queriedIds es
  | _ :: es => queriedIds es

/-- The test of handler.go, lines 45 and 100: `err == sql.ErrNoRows`. -/
def isNotFound (err : GoError) : Bool :=
  err == GoError.ErrNoRows

/-! ## Stand-in collaborators -/

/-- A backend that gives the same answers whatever it is asked. -/
def scripted (qb : RowResult BookRow) (qe : RowResult ElectronicRow)
    (xb xe : ExecResult) (h : HttpResult) : Backend Unit where
  queryBook := fun _ _ => ((), qb)
  queryElectronic := fun _ _ => ((), qe)
  execBook := fun _ _ _ => ((), xb)
  execElectronic := fun _ _ _ => ((), xe)
  requestError := fun _ => none
  roundTrip := fun _ _ _ => ((), h)

/-- Tables held in memory, and the payloads posted so far. -/
structure Mem where
  books : List BookRow
  electronics : List ElectronicRow
  posted : List (String × List Doc)

/-- An in-memory database and an index that accepts every document. -/
def memBackend : Backend Mem where
  queryBook := fun m id =>
    (m, match m.books.find? (fun r => r.id == id) with
        | some r => .row r
        | none => .noRows)
  queryElectronic := fun m id =>
    (m, match m.electronics.find? (fun r => r.id == id) with
        | some r => .row r
        | none => .noRows)
  execBook := fun m d id =>
    let touch : BookRow → BookRow :=
      fun r => if r.id == id then { r with description := some d } else r
    ({ m with books := m.books.map touch },
     .affected (m.books.countP (fun r => r.id == id)))
  execElectronic := fun m d id =>
    let touch : ElectronicRow → ElectronicRow :=
      fun r => if r.id == id then { r with description := some d } else r
    ({ m with electronics := m.electronics.map touch },
     .affected (m.electronics.countP (fun r => r.id == id)))
  requestError := fun _ => none
  roundTrip := fun m url payload =>
    ({ m with posted := m.posted ++ [(url, payload)] }, .response 200 (.ok 0))

/-- The book row of the scenario; 9.99 is the bit pattern 0x4023FAE147AE147B. -/
def duneRow : BookRow :=
  { id := 42, title := "Dune", author := "Herbert", genre := "SciFi",
    price := ⟨4621813488089437307⟩, in_stock := 1, isbn := "123",
    description := none, updated_at := 0 }

/-- The document of the scenario. -/
def duneDoc : Doc :=
  [ ("id", .str "book-42"),
    ("sku", .str "book-42"),
    ("type_s", .str "book"),
    ("cat", .strs ["books"]),
    ("name", .str "Dune"),
    ("author_s", .str "Herbert"),
    ("genre_s", .str "SciFi"),
    ("price", .float ⟨4621813488089437307⟩),
    ("inStock", .bool true),
    ("isbn_s", .str "123"),
    ("description", .str "") ]

def duneMem : Mem :=
  { books := [duneRow], electronics := [], posted := [] }

/-- An electronics row with both nullable columns NULL. -/
def bareElectronicRow : ElectronicRow :=
  { id := 7, name := "Phone", manufacturer := "Acme", price := ⟨4621813488089437307⟩,
    in_stock := 0, specs := none, description := none, updated_at := 0 }

/-- A client as `NewClient` builds it for the default base URL. -/
def solrClient : Client :=
  { baseURL := "http://localhost:8983/solr" }

/-- The body of a synced response. -/
def syncedBody (resource noun : String) (id : Int) : Doc :=
  [ ("resource", .str resource),
    ("id", .int id),
    ("status", .str "synced"),
    ("message", .str (noun ++ " " ++ formatInt id ++ " updated and synced to Solr")) ]

/-- Both rows exist and the index answers 200 with embedded status 1. -/
def rejectingIndex : Backend Unit :=
  scripted (.row duneRow) (.row bareElectronicRow) (.affected 1) (.affected 1)
    (.response 200 (.ok 1))

/-- No row exists in either table. -/
def emptyStore : Backend Unit :=
  scripted .noRows .noRows (.affected 0) (.affected 0) (.response 200 (.ok 0))

/-- The database connection is down. -/
def brokenStore : Backend Unit :=
  scripted (.failed "dial tcp: connection refused") (.failed "dial tcp: connection refused")
    (.failed "dial tcp: connection refused") (.failed "dial tcp: connection refused")
    (.response 200 (.ok 0))

/-- The write touches one row, and the row is gone when it is read again. -/
def vanishingRow : Backend Unit :=
  scripted .noRows .noRows (.affected 1) (.affected 1) (.response 200 (.ok 0))

/-- The write touches one row, and the connection is lost before the read. -/
def flakyStore : Backend Unit :=
  scripted (.failed "invalid connection") (.failed "invalid connection")
    (.affected 1) (.affected 1) (.response 200 (.ok 0))

/-- The record `GetBook` returns for `duneRow`. -/
def duneBook : Book :=
  { ID := 42, Title := "Dune", Author := "Herbert", Genre := "SciFi",
    Price := ⟨4621813488089437307⟩, InStock := true, ISBN := "123",
    Description := "", UpdatedAt := 0 }

/-- The record `GetElectronic` returns for `bareElectronicRow`. -/
def bareElectronic : Electronic :=
  { ID := 7, Name := "Phone", Manufacturer := "Acme", Price := ⟨4621813488089437307⟩,
    InStock := false, Specs := "\x7b\x7d", Description := "", UpdatedAt := 0 }

/-- Both rows exist; the index answers 200 with embedded status 1 to the
update of the collection "books" and 200 with embedded status 0 to any other
request. -/
def booksRejectingIndex : Backend Unit where
  queryBook := fun _ _ => ((), .row duneRow)
  queryElectronic := fun _ _ => ((), .row bareElectronicRow)
  execBook := fun _ _ _ => ((), .affected 1)
  execElectronic := fun _ _ _ => ((), .affected 1)
  requestError := fun _ => none
  roundTrip := fun _ url _ =>
    ((), if url = "http://localhost:8983/solr/books/update?commit=true"
         then .response 200 (.ok 1) else .response 200 (.ok 0))

/-! ## Decimal numerals -/

/-- The number a string of decimal digits denotes, continuing from `acc`. -/
def digitsValue (acc : Nat) (cs : List Char) : Nat :=
  cs.foldl (fun a c => a * 10 + (c.toNat - '0'.toNat)) acc

/-- The characters after an optional leading sign. -/
def unsignedPart (s : String) : List Char :=
  match s.data with
  | [] => []
  | c :: cs => if c == '+' ∨ c == '-' then cs else c :: cs

/-- The string starts with a minus sign. -/
def hasMinus (s : String) : Bool :=
  match s.data with
  | [] => false
  | c :: _ => c == '-'

/-- The integer a signed decimal numeral denotes. -/
def numeralValue (s : String) : Int :=
  if hasMinus s then -(digitsValue 0 (unsignedPart s) : Int)
  else (digitsValue 0 (unsignedPart s) : Int)

/-! ## Lemmas on `ParseInt` -/

theorem digitsValue_ge (cs : List Char) (acc : Nat) : acc ≤ digitsValue acc cs := by
  induction cs generalizing acc with
  | nil => simp [digitsValue]
  | cons c cs ih =>
    have h := ih (acc * 10 + (c.toNat - '0'.toNat))
    simp only [digitsValue, List.foldl_cons] at h ⊢
    omega

/-- When the digit loop succeeds, every character was a digit, the result is
the value of the numeral, and it fits 64 bits if the accumulator did. -/
theorem parseUintLoop_ok (cs : List Char) (n m : Nat)
    (h : parseUintLoop cs n = .ok m) :
    (∀ c ∈ cs, '0' ≤ c ∧ c ≤ '9') ∧ m = digitsValue n cs ∧
      (n ≤ maxUint64 → m ≤ maxUint64) := by
  induction cs generalizing n with
  | nil =>
    simp only [parseUintLoop, Except.ok.injEq] at h
    subst h
    simp [digitsValue]
  | cons c cs ih =>
    unfold parseUintLoop at h
    by_cases hd : '0' ≤ c ∧ c ≤ '9'
    · rw [if_pos hd] at h
      dsimp only at h
      by_cases hc : n ≥ maxUint64 / 10 + 1
      · rw [if_pos hc] at h
        cases h
      · rw [if_neg hc] at h
        by_cases ho : n * 10 + (c.toNat - '0'.toNat) > maxUint64
        · rw [if_pos ho] at h
          cases h
        · rw [if_neg ho] at h
          obtain ⟨h1, h2, h3⟩ := ih _ h
          refine ⟨?_, ?_, ?_⟩
          · intro x hx
            rcases List.mem_cons.mp hx with rfl | hx
            · exact hd
            · exact h1 x hx
          · rw [h2]
            simp only [digitsValue, List.foldl_cons]
          · intro _
            exact h3 (by omega)
    · rw [if_neg hd] at h
      cases h

/-- The digit loop succeeds on every digit string whose value fits. -/
theorem parseUintLoop_complete (cs : List Char) (n : Nat)
    (hd : ∀ c ∈ cs, '0' ≤ c ∧ c ≤ '9') (hv : digitsValue n cs ≤ maxUint64) :
    parseUintLoop cs n = .ok (digitsValue n cs) := by
  induction cs generalizing n with
  | nil => simp [parseUintLoop, digitsValue]
  | cons c cs ih =>
    have hc : '0' ≤ c ∧ c ≤ '9' := hd c (List.mem_cons_self _ _)
    have hv1 : digitsValue (n * 10 + (c.toNat - '0'.toNat)) cs ≤ maxUint64 := by
      simpa [digitsValue] using hv
    have hge := digitsValue_ge cs (n * 10 + (c.toNat - '0'.toNat))
    have h1 : ¬ n ≥ maxUint64 / 10 + 1 := by
      simp only [maxUint64] at hv1 hge ⊢
      omega
    have h2 : ¬ n * 10 + (c.toNat - '0'.toNat) > maxUint64 := by omega
    unfold parseUintLoop
    rw [if_pos hc, if_neg h1]
    simp only [h2, if_false]
    rw [ih _ (fun x hx => hd x (List.mem_cons_of_mem _ hx)) hv1]
    simp [digitsValue]

theorem ParseUint_ok (cs : List Char) (m : Nat) (h : ParseUint cs = .ok m) :
    cs ≠ [] ∧ (∀ c ∈ cs, '0' ≤ c ∧ c ≤ '9') ∧ m = digitsValue 0 cs ∧ m ≤ maxUint64 := by
  cases cs with
  | nil => cases h
  | cons c cs =>
    have h1 : parseUintLoop (c :: cs) 0 = .ok m := h
    obtain ⟨a, b, d⟩ := parseUintLoop_ok _ _ _ h1
    exact ⟨by simp, a, b, d (by simp [maxUint64])⟩

theorem ParseUint_complete (cs : List Char) (hne : cs ≠ [])
    (hd : ∀ c ∈ cs, '0' ≤ c ∧ c ≤ '9') (hv : digitsValue 0 cs ≤ maxUint64) :
    ParseUint cs = .ok (digitsValue 0 cs) := by
  cases cs with
  | nil => exact absurd rfl hne
  | cons c cs => exact parseUintLoop_complete _ _ hd hv

/-- What `ParseInt` makes of the result of `ParseUint` on the unsigned part. -/
theorem ParseInt_eq (s : String) :
    ParseInt s =
      match s.data with
      | [] => .error .ErrSyntax
      | _ :: _ =>
        match ParseUint (unsignedPart s) with
        | .error .ErrSyntax => .error .ErrSyntax
        | .error .ErrRange => .error .ErrRange
        | .ok un =>
          if hasMinus s = false ∧ un ≥ 2 ^ 63 then .error .ErrRange
          else if hasMinus s = true ∧ un > 2 ^ 63 then .error .ErrRange
          else .ok (if hasMinus s then -(un : Int) else (un : Int)) := by
  unfold ParseInt unsignedPart hasMinus
  cases hs : s.data with
  | nil => rfl
  | cons c cs =>
    simp only
    cases hP : ParseUint (if c == '+' ∨ c == '-' then cs else c :: cs) with
    | error e =>
      cases e
      · rfl
      · by_cases hm : c = '-' <;> simp [hm, maxUint64]
    | ok un => simp

/-- What `ParseInt` accepts is a signed decimal numeral whose value fits an
`int64`, and the result is that value. -/
theorem ParseInt_ok (s : String) (id : Int) (h : ParseInt s = .ok id) :
    unsignedPart s ≠ [] ∧ (∀ c ∈ unsignedPart s, '0' ≤ c ∧ c ≤ '9') ∧
      id = numeralValue s ∧ -(2 : Int) ^ 63 ≤ id ∧ id < (2 : Int) ^ 63 := by
  rw [ParseInt_eq] at h
  cases hs : s.data with
  | nil => rw [hs] at h; cases h
  | cons c cs =>
    rw [hs] at h
    simp only at h
    cases hP : ParseUint (unsignedPart s) with
    | error e => rw [hP] at h; cases e <;> cases h
    | ok un =>
      rw [hP] at h
      simp only at h
      obtain ⟨a, b, d, _⟩ := ParseUint_ok _ _ hP
      refine ⟨a, b, ?_⟩
      unfold numeralValue
      rw [← d]
      cases hm : hasMinus s
      · rw [hm] at h
        simp only [true_and, Bool.false_eq_true, false_and, if_false] at h
        split at h
        · cases h
        · rename_i hr
          cases h
          simp only [Bool.false_eq_true, if_false]
          refine ⟨trivial, ?_, ?_⟩
          · have : (0 : Int) ≤ (un : Int) := Int.ofNat_nonneg un
            norm_num
            omega
          · norm_num
            omega
      · rw [hm] at h
        simp only [true_and, Bool.true_eq_false, false_and, if_false] at h
        split at h
        · cases h
        · rename_i hr
          cases h
          simp only [if_true]
          refine ⟨trivial, ?_, ?_⟩
          · norm_num
            omega
          · have : (0 : Int) ≤ (un : Int) := Int.ofNat_nonneg un
            norm_num
            omega

/-- Every signed decimal numeral whose value fits an `int64` is accepted. -/
theorem ParseInt_complete (s : String) (hne : unsignedPart s ≠ [])
    (hd : ∀ c ∈ unsignedPart s, '0' ≤ c ∧ c ≤ '9')
    (hlo : -(2 : Int) ^ 63 ≤ numeralValue s) (hhi : numeralValue s < (2 : Int) ^ 63) :
    ParseInt s = .ok (numeralValue s) := by
  rw [ParseInt_eq]
  cases hs : s.data with
  | nil => simp [unsignedPart, hs] at hne
  | cons c cs =>
    simp only
    unfold numeralValue at hlo hhi ⊢
    cases hm : hasMinus s
    · rw [hm] at hlo hhi
      simp only [Bool.false_eq_true, if_false] at hlo hhi ⊢
      norm_num at hlo hhi
      have hv : digitsValue 0 (unsignedPart s) ≤ maxUint64 := by
        simp only [maxUint64]
        omega
      rw [ParseUint_complete _ hne hd hv]
      simp only [true_and, Bool.false_eq_true, false_and, if_false]
      rw [if_neg (by omega)]
    · rw [hm] at hlo hhi
      simp only [if_true] at hlo hhi ⊢
      norm_num at hlo hhi
      have hv : digitsValue 0 (unsignedPart s) ≤ maxUint64 := by
        simp only [maxUint64]
        omega
      rw [ParseUint_complete _ hne hd hv]
      simp only [true_and, Bool.true_eq_false, false_and, if_false]
      rw [if_neg (by omega)]

/-! ## `formatInt` writes what `ParseInt` reads -/

theorem digitChar_isDigit (k : Nat) (hk : k < 10) :
    '0' ≤ Nat.digitChar k ∧ Nat.digitChar k ≤ '9' := by
  interval_cases k <;> decide

theorem digitChar_value (k : Nat) (hk : k < 10) :
    (Nat.digitChar k).toNat - '0'.toNat = k := by
  interval_cases k <;> decide

theorem toDigitsCore_isDigit (fuel n : Nat) (ds : List Char)
    (hds : ∀ c ∈ ds, '0' ≤ c ∧ c ≤ '9') :
    ∀ c ∈ Nat.toDigitsCore 10 fuel n ds, '0' ≤ c ∧ c ≤ '9' := by
  induction fuel generalizing n ds with
  | zero => simpa [Nat.toDigitsCore] using hds
  | succ fuel ih =>
    have hd := digitChar_isDigit (n % 10) (Nat.mod_lt _ (by decide))
    have hcons : ∀ c ∈ Nat.digitChar (n % 10) :: ds, '0' ≤ c ∧ c ≤ '9' := by
      intro c hc
      rcases List.mem_cons.mp hc with rfl | hc
      · exact hd
      · exact hds c hc
    unfold Nat.toDigitsCore
    by_cases h0 : n / 10 = 0
    · simpa [h0] using hcons
    · simp only [h0, if_false]
      exact ih _ _ hcons

theorem toDigitsCore_ne_nil (fuel n : Nat) (ds : List Char) (hds : ds ≠ []) :
    Nat.toDigitsCore 10 fuel n ds ≠ [] := by
  induction fuel generalizing n ds with
  | zero => simpa [Nat.toDigitsCore] using hds
  | succ fuel ih =>
    unfold Nat.toDigitsCore
    by_cases h0 : n / 10 = 0
    · simp [h0]
    · simp only [h0, if_false]
      exact ih _ _ (by simp)

theorem toDigitsCore_value (fuel n : Nat) (ds : List Char) (hfuel : n < fuel) :
    digitsValue 0 (Nat.toDigitsCore 10 fuel n ds) = digitsValue n ds := by
  induction fuel generalizing n ds with
  | zero => omega
  | succ fuel ih =>
    have hv := digitChar_value (n % 10) (Nat.mod_lt _ (by decide))
    unfold Nat.toDigitsCore
    by_cases h0 : n / 10 = 0
    · simp only [h0, if_true]
      have hn : n % 10 = n := by omega
      rw [hn] at hv
      simp only [digitsValue, List.foldl_cons, hn, hv, Nat.zero_mul, Nat.zero_add]
    · simp only [h0, if_false]
      rw [ih (n / 10) _ (by omega)]
      have hn : n / 10 * 10 + n % 10 = n := by omega
      simp only [digitsValue, List.foldl_cons, hv, hn]

theorem toDigits_spec (n : Nat) :
    Nat.toDigits 10 n ≠ [] ∧ (∀ c ∈ Nat.toDigits 10 n, '0' ≤ c ∧ c ≤ '9') ∧
      digitsValue 0 (Nat.toDigits 10 n) = n := by
  refine ⟨?_, ?_, ?_⟩
  · unfold Nat.toDigits Nat.toDigitsCore
    by_cases h0 : n / 10 = 0
    · simp [h0]
    · simp only [h0, if_false]
      exact toDigitsCore_ne_nil _ _ _ (by simp)
  · exact toDigitsCore_isDigit _ _ _ (by simp)
  · unfold Nat.toDigits
    rw [toDigitsCore_value _ _ _ (by omega)]
    simp [digitsValue]

theorem formatInt_data_neg (i : Int) (hi : i < 0) :
    (formatInt i).data = '-' :: Nat.toDigits 10 i.natAbs := by
  simp [formatInt, hi, Nat.repr, List.asString]

theorem formatInt_data_nonneg (i : Int) (hi : ¬ i < 0) :
    (formatInt i).data = Nat.toDigits 10 i.toNat := by
  simp [formatInt, hi, Nat.repr, List.asString]

theorem digit_not_sign (c : Char) (hc : '0' ≤ c ∧ c ≤ '9') : c ≠ '+' ∧ c ≠ '-' := by
  constructor
  · intro h
    subst h
    exact absurd hc.1 (by decide)
  · intro h
    subst h
    exact absurd hc.1 (by decide)

/-- What `fmt.Sprintf("%d", i)` writes for an `int64`, `strconv.ParseInt` reads
back as `i`. -/
theorem ParseInt_formatInt (i : Int) (hlo : -(2 : Int) ^ 63 ≤ i) (hhi : i < (2 : Int) ^ 63) :
    ParseInt (formatInt i) = .ok i := by
  by_cases hi : i < 0
  · obtain ⟨hne, hdig, hval⟩ := toDigits_spec i.natAbs
    have hdata := formatInt_data_neg i hi
    have hu : unsignedPart (formatInt i) = Nat.toDigits 10 i.natAbs := by
      simp [unsignedPart, hdata]
    have hm : hasMinus (formatInt i) = true := by
      simp [hasMinus, hdata]
    have hv : numeralValue (formatInt i) = i := by
      simp only [numeralValue, hm, if_true, hu, hval]
      omega
    have h := ParseInt_complete (formatInt i) (by rw [hu]; exact hne) (by rw [hu]; exact hdig)
      (by rw [hv]; exact hlo) (by rw [hv]; exact hhi)
    rw [hv] at h
    exact h
  · obtain ⟨hne, hdig, hval⟩ := toDigits_spec i.toNat
    have hdata := formatInt_data_nonneg i hi
    have hu : unsignedPart (formatInt i) = Nat.toDigits 10 i.toNat := by
      cases hd : Nat.toDigits 10 i.toNat with
      | nil => exact absurd hd hne
      | cons c cs =>
        have hc := digit_not_sign c (hdig c (by rw [hd]; exact List.mem_cons_self _ _))
        simp [unsignedPart, hdata, hd, hc.1, hc.2]
    have hm : hasMinus (formatInt i) = false := by
      cases hd : Nat.toDigits 10 i.toNat with
      | nil => exact absurd hd hne
      | cons c cs =>
        have hc := digit_not_sign c (hdig c (by rw [hd]; exact List.mem_cons_self _ _))
        simp [hasMinus, hdata, hd, hc.2]
    have hv : numeralValue (formatInt i) = i := by
      simp only [numeralValue, hm, Bool.false_eq_true, if_false, hu, hval]
      omega
    have h := ParseInt_complete (formatInt i) (by rw [hu]; exact hne) (by rw [hu]; exact hdig)
      (by rw [hv]; exact hlo) (by rw [hv]; exact hhi)
    rw [hv] at h
    exact h

/-! ## Lemmas on the trace -/

theorem updateDocCalls_append (a b : List Event) :
    updateDocCalls (a ++ b) = updateDocCalls a ++ updateDocCalls b := by
  induction a with
  | nil => rfl
  | cons e es ih => cases e <;> simp [updateDocCalls, ih]

theorem queriedIds_append (a b : List Event) :
    queriedIds (a ++ b) = queriedIds a ++ queriedIds b := by
  induction a with
  | nil => rfl
  | cons e es ih => cases e <;> simp [queriedIds, ih]

/-- The lookup `GetBook` makes: one query, whatever the answer. -/
theorem GetBook_world {σ : Type} (B : Backend σ) (w : World σ) (id : Int) :
    (GetBook B w id).2 =
      { env := (B.queryBook w.env id).1, trace := w.trace ++ [Event.query "books" id] } := by
  simp only [GetBook]
  cases hq : (B.queryBook w.env id).2 with
  | failed cause => rfl
  | noRows => rfl
  | row r => cases hs : scanUint8 r.in_stock <;> simp [hs]

theorem GetElectronic_world {σ : Type} (B : Backend σ) (w : World σ) (id : Int) :
    (GetElectronic B w id).2 =
      { env := (B.queryElectronic w.env id).1,
        trace := w.trace ++ [Event.query "electronics" id] } := by
  simp only [GetElectronic]
  cases hq : (B.queryElectronic w.env id).2 with
  | failed cause => rfl
  | noRows => rfl
  | row r => cases hs : scanUint8 r.in_stock <;> simp [hs]

/-- What `GetBook` returns on a row whose `in_stock` fits a `uint8`. -/
theorem GetBook_row {σ : Type} (B : Backend σ) (w : World σ) (id : Int) (r : BookRow)
    (hq : (B.queryBook w.env id).2 = RowResult.row r)
    (hfit : 0 ≤ r.in_stock ∧ r.in_stock ≤ 255) :
    (GetBook B w id).1 = .ok
      { ID := r.id, Title := r.title, Author := r.author, Genre := r.genre,
        Price := r.price, InStock := r.in_stock.toNat == 1, ISBN := r.isbn,
        Description := COALESCE r.description "", UpdatedAt := r.updated_at } := by
  simp [GetBook, hq, scanUint8, hfit]

theorem GetElectronic_row {σ : Type} (B : Backend σ) (w : World σ) (id : Int)
    (r : ElectronicRow)
    (hq : (B.queryElectronic w.env id).2 = RowResult.row r)
    (hfit : 0 ≤ r.in_stock ∧ r.in_stock ≤ 255) :
    (GetElectronic B w id).1 = .ok
      { ID := r.id, Name := r.name, Manufacturer := r.manufacturer,
        Price := r.price, InStock := r.in_stock.toNat == 1,
        Specs := COALESCE r.specs "\x7b\x7d",
        Description := COALESCE r.description "", UpdatedAt := r.updated_at } := by
  simp [GetElectronic, hq, scanUint8, hfit]

/-- The trace `UpdateDoc` leaves: its own call, then at most one request. -/
theorem UpdateDoc_trace {σ : Type} (B : Backend σ) (c : Client) (w : World σ)
    (collection : String) (doc : Doc) :
    (UpdateDoc B c w collection doc).2.trace
        = w.trace ++ [Event.updateDoc collection doc] ∨
    (UpdateDoc B c w collection doc).2.trace
        = w.trace ++ [Event.updateDoc collection doc,
            Event.post (c.baseURL ++ "/" ++ collection ++ "/update?commit=true") [doc]] := by
  simp only [UpdateDoc]
  cases hm : marshalError [doc] with
  | some e => simp
  | none =>
    cases hr : B.requestError (c.baseURL ++ "/" ++ collection ++ "/update?commit=true") with
    | some cause => simp
    | none =>
      cases ht : (B.roundTrip w.env
          (c.baseURL ++ "/" ++ collection ++ "/update?commit=true") [doc]).2 with
      | failed cause => simp
      | response statusCode decoded =>
        by_cases hs : statusCode = 200
        · cases decoded with
          | error cause => simp [hs]
          | ok status => by_cases h0 : status = 0 <;> simp [hs, h0]
        · simp [hs]

/-- Once the document marshals and the request can be built, the request is
sent: one POST to the update URL of the collection, carrying the one-element
payload. -/
theorem UpdateDoc_trace_sent {σ : Type} (B : Backend σ) (c : Client) (w : World σ)
    (collection : String) (doc : Doc)
    (hm : marshalError [doc] = none)
    (hr : B.requestError (c.baseURL ++ "/" ++ collection ++ "/update?commit=true") = none) :
    (UpdateDoc B c w collection doc).2.trace
        = w.trace ++ [Event.updateDoc collection doc,
            Event.post (c.baseURL ++ "/" ++ collection ++ "/update?commit=true") [doc]] := by
  simp only [UpdateDoc, hm, hr]
  cases ht : (B.roundTrip w.env
      (c.baseURL ++ "/" ++ collection ++ "/update?commit=true") [doc]).2 with
  | failed cause => simp
  | response statusCode decoded =>
    by_cases hs : statusCode = 200
    · cases decoded with
      | error cause => simp [hs]
      | ok status => by_cases h0 : status = 0 <;> simp [hs, h0]
    · simp [hs]

theorem UpdateDoc_calls {σ : Type} (B : Backend σ) (c : Client) (w : World σ)
    (collection : String) (doc : Doc) :
    updateDocCalls (UpdateDoc B c w collection doc).2.trace
      = updateDocCalls w.trace ++ [(collection, doc)] := by
  rcases UpdateDoc_trace B c w collection doc with h | h <;>
    simp [h, updateDocCalls_append, updateDocCalls]

theorem UpdateDoc_queried {σ : Type} (B : Backend σ) (c : Client) (w : World σ)
    (collection : String) (doc : Doc) :
    queriedIds (UpdateDoc B c w collection doc).2.trace = queriedIds w.trace := by
  rcases UpdateDoc_trace B c w collection doc with h | h <;>
    simp [h, queriedIds_append, queriedIds]

/-- `UpdateDoc` returns the nil error exactly when the document marshals, the
request can be built, the transport answers 200 and the decoded embedded
status is 0. -/
theorem UpdateDoc_eq_none_iff {σ : Type} (B : Backend σ) (c : Client) (w : World σ)
    (collection : String) (doc : Doc) :
    (UpdateDoc B c w collection doc).1 = none ↔
      marshalError [doc] = none ∧
      B.requestError (c.baseURL ++ "/" ++ collection ++ "/update?commit=true") = none ∧
      (B.roundTrip w.env (c.baseURL ++ "/" ++ collection ++ "/update?commit=true") [doc]).2
        = HttpResult.response 200 (.ok 0) := by
  simp only [UpdateDoc]
  cases hm : marshalError [doc] with
  | some e => simp
  | none =>
    cases hr : B.requestError (c.baseURL ++ "/" ++ collection ++ "/update?commit=true") with
    | some cause => simp
    | none =>
      cases ht : (B.roundTrip w.env
          (c.baseURL ++ "/" ++ collection ++ "/update?commit=true") [doc]).2 with
      | failed cause => simp
      | response statusCode decoded =>
        by_cases hs : statusCode = 200
        · cases decoded with
          | error cause => simp [hs]
          | ok status => by_cases h0 : status = 0 <;> simp [hs, h0]
        · simp [hs]

/-- What `UpdateDoc` returns once the transport has answered with a response:
the status code is tested against 200 first, then the body is decoded, then the
embedded status is tested against 0. -/
theorem UpdateDoc_on_response {σ : Type} (B : Backend σ) (c : Client) (w : World σ)
    (collection : String) (doc : Doc) (s : Int) (d : Except String Int)
    (hm : marshalError [doc] = none)
    (hr : B.requestError (c.baseURL ++ "/" ++ collection ++ "/update?commit=true") = none)
    (hresp : (B.roundTrip w.env (c.baseURL ++ "/" ++ collection ++ "/update?commit=true")
      [doc]).2 = HttpResult.response s d) :
    (UpdateDoc B c w collection doc).1 =
      if s ≠ 200 then some (.msg ("solr returned status " ++ formatInt s))
      else match d with
        | .error cause => some (.wrap "failed to decode response" (.msg cause))
        | .ok status =>
          if status ≠ 0 then some (.msg ("solr update failed with status " ++ formatInt status))
          else none := by
  simp only [UpdateDoc, hm, hr, hresp]
  by_cases hs : s = 200
  · cases d with
    | error cause => simp [hs]
    | ok status => by_cases h0 : status = 0 <;> simp [hs, h0]
  · simp [hs]

/-! ## The handlers, step by step -/

theorem HandleBook_parse_error {σ : Type} (B : Backend σ) (c : Client) (w : World σ)
    (idParam : String) (e : NumError) (hp : ParseInt idParam = .error e) :
    HandleBook B c w idParam = (respondError 400 "invalid id parameter", w) := by
  simp [HandleBook, hp]

theorem HandleElectronic_parse_error {σ : Type} (B : Backend σ) (c : Client) (w : World σ)
    (idParam : String) (e : NumError) (hp : ParseInt idParam = .error e) :
    HandleElectronic B c w idParam = (respondError 400 "invalid id parameter", w) := by
  simp [HandleElectronic, hp]

theorem HandleBook_store_error {σ : Type} (B : Backend σ) (c : Client) (w : World σ)
    (idParam : String) (id : Int) (err : GoError) (hp : ParseInt idParam = .ok id)
    (hg : (GetBook B w id).1 = .error err) :
    HandleBook B c w idParam =
      (if err = GoError.ErrNoRows then respondError 404 "book not found"
        else respondError 500 "database error", (GetBook B w id).2) := by
  rcases hG : GetBook B w id with ⟨r, w1⟩
  rw [hG] at hg
  simp only at hg
  subst hg
  simp only [HandleBook, hp, hG]
  split <;> rfl

theorem HandleElectronic_store_error {σ : Type} (B : Backend σ) (c : Client) (w : World σ)
    (idParam : String) (id : Int) (err : GoError) (hp : ParseInt idParam = .ok id)
    (hg : (GetElectronic B w id).1 = .error err) :
    HandleElectronic B c w idParam =
      (if err = GoError.ErrNoRows then respondError 404 "electronic not found"
        else respondError 500 "database error", (GetElectronic B w id).2) := by
  rcases hG : GetElectronic B w id with ⟨r, w1⟩
  rw [hG] at hg
  simp only at hg
  subst hg
  simp only [HandleElectronic, hp, hG]
  split <;> rfl

theorem HandleBook_store_ok {σ : Type} (B : Backend σ) (c : Client) (w : World σ)
    (idParam : String) (id : Int) (book : Book) (hp : ParseInt idParam = .ok id)
    (hg : (GetBook B w id).1 = .ok book) :
    HandleBook B c w idParam =
      (match (UpdateDoc B c (GetBook B w id).2 "books" (bookDoc book)).1 with
        | some _ => respondError 502 "failed to update solr"
        | none => respondJSON 200 (syncedBody "books" "Book" id),
       (UpdateDoc B c (GetBook B w id).2 "books" (bookDoc book)).2) := by
  rcases hG : GetBook B w id with ⟨r, w1⟩
  rw [hG] at hg
  simp only at hg
  subst hg
  simp only [HandleBook, hp, hG]
  rcases hU : UpdateDoc B c w1 "books" (bookDoc book) with ⟨u, w2⟩
  cases u <;> simp [syncedBody, String.append_assoc]

theorem HandleElectronic_store_ok {σ : Type} (B : Backend σ) (c : Client) (w : World σ)
    (idParam : String) (id : Int) (electronic : Electronic)
    (hp : ParseInt idParam = .ok id)
    (hg : (GetElectronic B w id).1 = .ok electronic) :
    HandleElectronic B c w idParam =
      (match (UpdateDoc B c (GetElectronic B w id).2 "electronics"
                (electronicDoc electronic)).1 with
        | some _ => respondError 502 "failed to update solr"
        | none => respondJSON 200 (syncedBody "electronics" "Electronic" id),
       (UpdateDoc B c (GetElectronic B w id).2 "electronics"
          (electronicDoc electronic)).2) := by
  rcases hG : GetElectronic B w id with ⟨r, w1⟩
  rw [hG] at hg
  simp only at hg
  subst hg
  simp only [HandleElectronic, hp, hG]
  rcases hU : UpdateDoc B c w1 "electronics" (electronicDoc electronic) with ⟨u, w2⟩
  cases u <;> simp [syncedBody, String.append_assoc]

/-- Each document a handler hands to `UpdateDoc` is the map literal built from
a record the store returned, sent to the collection of that resource. -/
theorem HandleBook_calls {σ : Type} (B : Backend σ) (c : Client) (w : World σ)
    (idParam : String) :
    updateDocCalls (HandleBook B c w idParam).2.trace = updateDocCalls w.trace ∨
    ∃ id book, (GetBook B w id).1 = .ok book ∧
      updateDocCalls (HandleBook B c w idParam).2.trace
        = updateDocCalls w.trace ++ [("books", bookDoc book)] := by
  cases hp : ParseInt idParam with
  | error e => left; rw [HandleBook_parse_error B c w idParam e hp]
  | ok id =>
    cases hg : (GetBook B w id).1 with
    | error err =>
      left
      rw [HandleBook_store_error B c w idParam id err hp hg, GetBook_world]
      simp [updateDocCalls_append, updateDocCalls]
    | ok book =>
      right
      refine ⟨id, book, hg, ?_⟩
      rw [HandleBook_store_ok B c w idParam id book hp hg, UpdateDoc_calls, GetBook_world]
      simp [updateDocCalls_append, updateDocCalls]

theorem HandleElectronic_calls {σ : Type} (B : Backend σ) (c : Client) (w : World σ)
    (idParam : String) :
    updateDocCalls (HandleElectronic B c w idParam).2.trace = updateDocCalls w.trace ∨
    ∃ id electronic, (GetElectronic B w id).1 = .ok electronic ∧
      updateDocCalls (HandleElectronic B c w idParam).2.trace
        = updateDocCalls w.trace ++ [("electronics", electronicDoc electronic)] := by
  cases hp : ParseInt idParam with
  | error e => left; rw [HandleElectronic_parse_error B c w idParam e hp]
  | ok id =>
    cases hg : (GetElectronic B w id).1 with
    | error err =>
      left
      rw [HandleElectronic_store_error B c w idParam id err hp hg, GetElectronic_world]
      simp [updateDocCalls_append, updateDocCalls]
    | ok electronic =>
      right
      refine ⟨id, electronic, hg, ?_⟩
      rw [HandleElectronic_store_ok B c w idParam id electronic hp hg, UpdateDoc_calls,
        GetElectronic_world]
      simp [updateDocCalls_append, updateDocCalls]

/-! ## Properties of the sync pipeline -/

/-- C1: for the stored book row with id 42, title "Dune", author "Herbert",
genre "SciFi", price 9.99, in_stock 1, isbn "123" and a NULL description,
`GetBook` followed by the document construction of `HandleBook` yields exactly
the document of the scenario, with exactly its 11 keys, and `HandleBook` hands
it to `UpdateDoc` for the collection "books". -/
theorem C1_dune_scenario {σ : Type} (B : Backend σ) (c : Client) (w : World σ) (t : Nat)
    (hrow : (B.queryBook w.env 42).2 = RowResult.row { duneRow with updated_at := t }) :
    (∃ book, (GetBook B w 42).1 = .ok book ∧ bookDoc book = duneDoc) ∧
    duneDoc.keys = ["id", "sku", "type_s", "cat", "name", "author_s", "genre_s",
      "price", "inStock", "isbn_s", "description"] ∧
    duneDoc.keys.Nodup ∧ duneDoc.keys.length = 11 ∧
    updateDocCalls (HandleBook B c w "42").2.trace
      = updateDocCalls w.trace ++ [("books", duneDoc)] ∧
    (B.requestError (c.baseURL ++ "/" ++ "books" ++ "/update?commit=true") = none →
      (HandleBook B c w "42").2.trace
        = w.trace ++ [Event.query "books" 42, Event.updateDoc "books" duneDoc,
            Event.post (c.baseURL ++ "/" ++ "books" ++ "/update?commit=true")
              [duneDoc]]) := by
  have hg := GetBook_row B w 42 _ hrow (by simp [duneRow])
  have hp : ParseInt "42" = .ok 42 := by decide
  have h42 : "book-" ++ formatInt 42 = "book-42" := by decide
  obtain ⟨book, hbook, hdoc⟩ :
      ∃ book, (GetBook B w 42).1 = .ok book ∧ bookDoc book = duneDoc :=
    ⟨_, hg, by simp [bookDoc, duneDoc, duneRow, COALESCE, h42]⟩
  refine ⟨⟨book, hbook, hdoc⟩, by decide, by decide, by decide, ?_, ?_⟩
  · rw [HandleBook_store_ok B c w "42" 42 book hp hbook, UpdateDoc_calls, GetBook_world, hdoc]
    simp only [updateDocCalls_append, updateDocCalls, List.append_nil]
  · intro hr
    rw [HandleBook_store_ok B c w "42" 42 book hp hbook, hdoc]
    show (UpdateDoc B c (GetBook B w 42).2 "books" duneDoc).2.trace = _
    rw [UpdateDoc_trace_sent B c _ "books" duneDoc (by decide) hr, GetBook_world]
    simp

theorem C1_dune_scenario_witness :
    (memBackend.queryBook duneMem 42).2 = RowResult.row { duneRow with updated_at := 0 } ∧
    ((∃ book, (GetBook memBackend ⟨duneMem, []⟩ 42).1 = .ok book ∧ bookDoc book = duneDoc) ∧
    duneDoc.keys = ["id", "sku", "type_s", "cat", "name", "author_s", "genre_s",
      "price", "inStock", "isbn_s", "description"] ∧
    duneDoc.keys.Nodup ∧ duneDoc.keys.length = 11 ∧
    updateDocCalls (HandleBook memBackend solrClient ⟨duneMem, []⟩ "42").2.trace
      = updateDocCalls [] ++ [("books", duneDoc)] ∧
    (memBackend.requestError (solrClient.baseURL ++ "/" ++ "books" ++ "/update?commit=true")
        = none →
      (HandleBook memBackend solrClient ⟨duneMem, []⟩ "42").2.trace
        = [] ++ [Event.query "books" 42, Event.updateDoc "books" duneDoc,
            Event.post (solrClient.baseURL ++ "/" ++ "books" ++ "/update?commit=true")
              [duneDoc]])) :=
  ⟨rfl, C1_dune_scenario memBackend solrClient ⟨duneMem, []⟩ 0 rfl⟩

/-- C2: for every Book and every Electronic record, the document built by the
handler has `id` and `sku` both equal to the type discriminator `type_s`
("book", "electronics"), a hyphen and the decimal rendering of the record id
(the rendering of an `int64` is read back as that id by `ParseInt`), and no
field of the document is null; and the documents the handlers hand to
`UpdateDoc` are exactly these documents of records the store returned. -/
theorem C2_id_sku_composition (book : Book) (electronic : Electronic) :
    ((bookDoc book).get? "type_s" = some (.str "book") ∧
      (bookDoc book).get? "id" = some (.str ("book" ++ "-" ++ formatInt book.ID)) ∧
      (bookDoc book).get? "sku" = some (.str ("book" ++ "-" ++ formatInt book.ID)) ∧
      (∀ kv ∈ bookDoc book, kv.2 ≠ Value.null)) ∧
    ((electronicDoc electronic).get? "type_s" = some (.str "electronics") ∧
      (electronicDoc electronic).get? "id"
        = some (.str ("electronics" ++ "-" ++ formatInt electronic.ID)) ∧
      (electronicDoc electronic).get? "sku"
        = some (.str ("electronics" ++ "-" ++ formatInt electronic.ID)) ∧
      (∀ kv ∈ electronicDoc electronic, kv.2 ≠ Value.null)) ∧
    (∀ i : Int, -(2 : Int) ^ 63 ≤ i → i < (2 : Int) ^ 63 → ParseInt (formatInt i) = .ok i) ∧
    (∀ (σ : Type) (B : Backend σ) (c : Client) (w : World σ) (idParam : String),
      (updateDocCalls (HandleBook B c w idParam).2.trace = updateDocCalls w.trace ∨
        ∃ id b, (GetBook B w id).1 = .ok b ∧
          updateDocCalls (HandleBook B c w idParam).2.trace
            = updateDocCalls w.trace ++ [("books", bookDoc b)]) ∧
      (updateDocCalls (HandleElectronic B c w idParam).2.trace = updateDocCalls w.trace ∨
        ∃ id e, (GetElectronic B w id).1 = .ok e ∧
          updateDocCalls (HandleElectronic B c w idParam).2.trace
            = updateDocCalls w.trace ++ [("electronics", electronicDoc e)])) := by
  refine ⟨⟨?_, ?_, ?_, ?_⟩, ⟨?_, ?_, ?_, ?_⟩, ParseInt_formatInt, ?_⟩
  · simp [bookDoc, Doc.get?, List.lookup]
  · simp [bookDoc, Doc.get?, List.lookup, String.append_assoc]
  · simp [bookDoc, Doc.get?, List.lookup, String.append_assoc]
  · intro kv hkv
    simp only [bookDoc, List.mem_cons, List.mem_singleton, List.not_mem_nil, or_false] at hkv
    rcases hkv with h | h | h | h | h | h | h | h | h | h | h <;> rw [h] <;> simp
  · simp [electronicDoc, Doc.get?, List.lookup]
  · simp [electronicDoc, Doc.get?, List.lookup, String.append_assoc]
  · simp [electronicDoc, Doc.get?, List.lookup, String.append_assoc]
  · intro kv hkv
    simp only [electronicDoc, List.mem_cons, List.mem_singleton, List.not_mem_nil,
      or_false] at hkv
    rcases hkv with h | h | h | h | h | h | h | h | h | h | h <;> rw [h] <;> simp
  · intro σ B c w idParam
    exact ⟨HandleBook_calls B c w idParam, HandleElectronic_calls B c w idParam⟩


theorem C2_id_sku_composition_witness :
    (bookDoc duneBook).get? "id" = some (.str ("book" ++ "-" ++ formatInt 42)) ∧
    (bookDoc duneBook).get? "sku" = some (.str ("book" ++ "-" ++ formatInt 42)) ∧
    (("cat", Value.strs ["books"]) ∈ bookDoc duneBook →
      Value.strs ["books"] ≠ Value.null) ∧
    (electronicDoc bareElectronic).get? "id"
      = some (.str ("electronics" ++ "-" ++ formatInt 7)) ∧
    (("specs_txt", Value.str "\x7b\x7d") ∈ electronicDoc bareElectronic →
      Value.str "\x7b\x7d" ≠ Value.null) ∧
    ParseInt (formatInt (-9223372036854775808)) = .ok (-9223372036854775808) :=
  ⟨(C2_id_sku_composition duneBook bareElectronic).1.2.1,
   (C2_id_sku_composition duneBook bareElectronic).1.2.2.1,
   fun h => (C2_id_sku_composition duneBook bareElectronic).1.2.2.2 _ h,
   (C2_id_sku_composition duneBook bareElectronic).2.1.2.1,
   fun h => (C2_id_sku_composition duneBook bareElectronic).2.1.2.2.2 _ h,
   (C2_id_sku_composition duneBook bareElectronic).2.2.1 (-9223372036854775808)
      (by decide) (by decide)⟩

/-- C3, as stated, fails: the transport status 201 is a 2xx status and the
embedded status is 0, yet `UpdateDoc` returns an error. -/
theorem C3_status_201_counterexample :
    ((200 : Int) ≤ 201 ∧ (201 : Int) ≤ 299 ∧ (0 : Int) = 0) ∧
    (UpdateDoc
        (scripted .noRows .noRows (.affected 0) (.affected 0) (.response 201 (.ok 0)))
        solrClient ⟨(), []⟩ "books" duneDoc).1
      = some (.msg "solr returned status 201") := by
  decide

/-- C3, amended: for every response the index engine returns to `UpdateDoc`
(status code `s`, decodable body with embedded status `e`), `UpdateDoc` returns
success if and only if `s` is exactly 200 and `e` is 0; every status other than
200 yields an error whose detail is the status code. -/
theorem C3_success_iff_200_and_zero {σ : Type} (B : Backend σ) (c : Client) (w : World σ)
    (collection : String) (doc : Doc) (s e : Int)
    (hm : marshalError [doc] = none)
    (hr : B.requestError (c.baseURL ++ "/" ++ collection ++ "/update?commit=true") = none)
    (hresp : (B.roundTrip w.env (c.baseURL ++ "/" ++ collection ++ "/update?commit=true")
      [doc]).2 = HttpResult.response s (.ok e)) :
    ((UpdateDoc B c w collection doc).1 = none ↔ s = 200 ∧ e = 0) ∧
    (s ≠ 200 → (UpdateDoc B c w collection doc).1
      = some (.msg ("solr returned status " ++ formatInt s))) := by
  rw [UpdateDoc_on_response B c w collection doc s (.ok e) hm hr hresp]
  by_cases hs : s = 200
  · by_cases h0 : e = 0 <;> simp [hs, h0]
  · simp [hs]

theorem C3_success_iff_200_and_zero_witness :
    marshalError [duneDoc] = none ∧
    ((UpdateDoc
        (scripted .noRows .noRows (.affected 0) (.affected 0) (.response 204 (.ok 0)))
        solrClient ⟨(), []⟩ "books" duneDoc).1 = none ↔ (204 : Int) = 200 ∧ (0 : Int) = 0) ∧
    ((204 : Int) ≠ 200 → (UpdateDoc
        (scripted .noRows .noRows (.affected 0) (.affected 0) (.response 204 (.ok 0)))
        solrClient ⟨(), []⟩ "books" duneDoc).1
      = some (.msg ("solr returned status " ++ formatInt 204))) :=
  ⟨by decide,
   C3_success_iff_200_and_zero
    (scripted .noRows .noRows (.affected 0) (.affected 0) (.response 204 (.ok 0)))
    solrClient ⟨(), []⟩ "books" duneDoc 204 0 (by decide) rfl rfl⟩

/-- C4: whenever the response to the request `UpdateDoc` sends has transport
status 200 and a body with a non-zero embedded `responseHeader.status`,
`UpdateDoc` returns an error, never success (the error names the embedded
status), and the handler that made the call does not report the record as
synced: its response is the 502 one, not a 200, with no "synced" status.
Only the answer to that one request is assumed; other requests may be
answered in any way. -/
theorem C4_embedded_status_is_error {σ : Type} (B : Backend σ) (c : Client) (w : World σ)
    (e : Int) (he : e ≠ 0) :
    (∀ collection doc,
      (B.roundTrip w.env (c.baseURL ++ "/" ++ collection ++ "/update?commit=true")
        [doc]).2 = HttpResult.response 200 (.ok e) →
      (UpdateDoc B c w collection doc).1 ≠ none ∧
      (marshalError [doc] = none →
        B.requestError (c.baseURL ++ "/" ++ collection ++ "/update?commit=true") = none →
        (UpdateDoc B c w collection doc).1
          = some (.msg ("solr update failed with status " ++ formatInt e)))) ∧
    (∀ idParam id book, ParseInt idParam = .ok id → (GetBook B w id).1 = .ok book →
      (B.roundTrip (GetBook B w id).2.env
        (c.baseURL ++ "/" ++ "books" ++ "/update?commit=true") [bookDoc book]).2
          = HttpResult.response 200 (.ok e) →
      (HandleBook B c w idParam).1 = respondError 502 "failed to update solr" ∧
      (HandleBook B c w idParam).1.status ≠ 200 ∧
      (HandleBook B c w idParam).1.body.get? "status" ≠ some (.str "synced")) ∧
    (∀ idParam id electronic, ParseInt idParam = .ok id →
      (GetElectronic B w id).1 = .ok electronic →
      (B.roundTrip (GetElectronic B w id).2.env
        (c.baseURL ++ "/" ++ "electronics" ++ "/update?commit=true")
        [electronicDoc electronic]).2 = HttpResult.response 200 (.ok e) →
      (HandleElectronic B c w idParam).1 = respondError 502 "failed to update solr" ∧
      (HandleElectronic B c w idParam).1.status ≠ 200 ∧
      (HandleElectronic B c w idParam).1.body.get? "status" ≠ some (.str "synced")) := by
  have hne : ∀ (w1 : World σ) collection doc,
      (B.roundTrip w1.env (c.baseURL ++ "/" ++ collection ++ "/update?commit=true")
        [doc]).2 = HttpResult.response 200 (.ok e) →
      (UpdateDoc B c w1 collection doc).1 ≠ none := by
    intro w1 collection doc hresp h
    rw [UpdateDoc_eq_none_iff, hresp] at h
    simp only [HttpResult.response.injEq, Except.ok.injEq, true_and] at h
    exact he h.2.2
  refine ⟨?_, ?_, ?_⟩
  · intro collection doc hresp
    refine ⟨hne w collection doc hresp, ?_⟩
    intro hm hr
    rw [UpdateDoc_on_response B c w collection doc 200 (.ok e) hm hr hresp]
    simp [he]
  · intro idParam id book hp hg hresp
    have h502 : (HandleBook B c w idParam).1 = respondError 502 "failed to update solr" := by
      rw [HandleBook_store_ok B c w idParam id book hp hg]
      cases hu : (UpdateDoc B c (GetBook B w id).2 "books" (bookDoc book)).1 with
      | none => exact absurd hu (hne _ _ _ hresp)
      | some err => rfl
    rw [h502]
    exact ⟨rfl, by decide, by decide⟩
  · intro idParam id electronic hp hg hresp
    have h502 : (HandleElectronic B c w idParam).1
        = respondError 502 "failed to update solr" := by
      rw [HandleElectronic_store_ok B c w idParam id electronic hp hg]
      cases hu : (UpdateDoc B c (GetElectronic B w id).2 "electronics"
          (electronicDoc electronic)).1 with
      | none => exact absurd hu (hne _ _ _ hresp)
      | some err => rfl
    rw [h502]
    exact ⟨rfl, by decide, by decide⟩

theorem C4_embedded_status_is_error_witness :
    (1 : Int) ≠ 0 ∧
    (booksRejectingIndex.roundTrip ()
      (solrClient.baseURL ++ "/" ++ "books" ++ "/update?commit=true") [duneDoc]).2
        = HttpResult.response 200 (.ok 1) ∧
    ((UpdateDoc booksRejectingIndex solrClient ⟨(), []⟩ "books" duneDoc).1 ≠ none ∧
      (marshalError [duneDoc] = none →
        booksRejectingIndex.requestError
          (solrClient.baseURL ++ "/" ++ "books" ++ "/update?commit=true") = none →
        (UpdateDoc booksRejectingIndex solrClient ⟨(), []⟩ "books" duneDoc).1
          = some (.msg ("solr update failed with status " ++ formatInt 1)))) ∧
    ParseInt "42" = .ok 42 ∧
    (GetBook booksRejectingIndex ⟨(), []⟩ 42).1 = .ok duneBook ∧
    ((HandleBook booksRejectingIndex solrClient ⟨(), []⟩ "42").1
        = respondError 502 "failed to update solr" ∧
      (HandleBook booksRejectingIndex solrClient ⟨(), []⟩ "42").1.status ≠ 200 ∧
      (HandleBook booksRejectingIndex solrClient ⟨(), []⟩ "42").1.body.get? "status"
        ≠ some (.str "synced")) ∧
    (HandleElectronic booksRejectingIndex solrClient ⟨(), []⟩ "7").1.status = 200 :=
  ⟨by decide, rfl,
   (C4_embedded_status_is_error booksRejectingIndex solrClient ⟨(), []⟩ 1 (by decide)).1
      "books" duneDoc rfl,
   by decide, rfl,
   (C4_embedded_status_is_error booksRejectingIndex solrClient ⟨(), []⟩ 1 (by decide)).2.1
      "42" 42 duneBook (by decide) rfl rfl,
   by decide⟩

/-- C5: for every request with a parsed id, if the store lookup reports no
matching row (`sql.ErrNoRows`), the handler never calls `UpdateDoc` and
responds 404 with the message of its resource ("book not found",
"electronic not found"); any other store error gives the 500 response, which
differs from the 404 one. -/
theorem C5_not_found_propagation {σ : Type} (B : Backend σ) (c : Client) (w : World σ)
    (idParam : String) (id : Int) (hp : ParseInt idParam = .ok id) :
    ((GetBook B w id).1 = .error .ErrNoRows →
      (HandleBook B c w idParam).1 = respondError 404 "book not found" ∧
      (HandleBook B c w idParam).2 = (GetBook B w id).2 ∧
      (HandleBook B c w idParam).2.trace = w.trace ++ [Event.query "books" id] ∧
      updateDocCalls (HandleBook B c w idParam).2.trace = updateDocCalls w.trace) ∧
    ((GetElectronic B w id).1 = .error .ErrNoRows →
      (HandleElectronic B c w idParam).1 = respondError 404 "electronic not found" ∧
      (HandleElectronic B c w idParam).2 = (GetElectronic B w id).2 ∧
      (HandleElectronic B c w idParam).2.trace = w.trace ++ [Event.query "electronics" id] ∧
      updateDocCalls (HandleElectronic B c w idParam).2.trace = updateDocCalls w.trace) ∧
    (∀ err, err ≠ GoError.ErrNoRows → (GetBook B w id).1 = .error err →
      (HandleBook B c w idParam).1 = respondError 500 "database error" ∧
      (HandleBook B c w idParam).1 ≠ respondError 404 "book not found") ∧
    (∀ err, err ≠ GoError.ErrNoRows → (GetElectronic B w id).1 = .error err →
      (HandleElectronic B c w idParam).1 = respondError 500 "database error" ∧
      (HandleElectronic B c w idParam).1 ≠ respondError 404 "electronic not found") := by
  refine ⟨?_, ?_, ?_, ?_⟩
  · intro hg
    rw [HandleBook_store_error B c w idParam id _ hp hg, GetBook_world]
    simp [updateDocCalls_append, updateDocCalls]
  · intro hg
    rw [HandleElectronic_store_error B c w idParam id _ hp hg, GetElectronic_world]
    simp [updateDocCalls_append, updateDocCalls]
  · intro err hne hg
    rw [HandleBook_store_error B c w idParam id err hp hg]
    simp only [hne, if_false]
    exact ⟨trivial, by decide⟩
  · intro err hne hg
    rw [HandleElectronic_store_error B c w idParam id err hp hg]
    simp only [hne, if_false]
    exact ⟨trivial, by decide⟩

theorem C5_not_found_propagation_witness :
    ParseInt "7" = .ok 7 ∧
    (GetBook emptyStore ⟨(), []⟩ 7).1 = .error .ErrNoRows ∧
    ((HandleBook emptyStore solrClient ⟨(), []⟩ "7").1 = respondError 404 "book not found" ∧
      (HandleBook emptyStore solrClient ⟨(), []⟩ "7").2 = (GetBook emptyStore ⟨(), []⟩ 7).2 ∧
      (HandleBook emptyStore solrClient ⟨(), []⟩ "7").2.trace = [] ++ [Event.query "books" 7] ∧
      updateDocCalls (HandleBook emptyStore solrClient ⟨(), []⟩ "7").2.trace
        = updateDocCalls []) ∧
    ((HandleBook brokenStore solrClient ⟨(), []⟩ "7").1 = respondError 500 "database error" ∧
      (HandleBook brokenStore solrClient ⟨(), []⟩ "7").1
        ≠ respondError 404 "book not found") :=
  ⟨by decide, rfl,
   (C5_not_found_propagation emptyStore solrClient ⟨(), []⟩ "7" 7 (by decide)).1 rfl,
   (C5_not_found_propagation brokenStore solrClient ⟨(), []⟩ "7" 7 (by decide)).2.2.1
      (.msg "dial tcp: connection refused") (by decide) rfl⟩

/-- C6: for every request with a parsed id the handler makes one pass, with
no retry.  A store error other than not-found gives the 500 response with the
fixed message "database error", whatever the error, after the single store
query and with no `UpdateDoc` call.  After a successful lookup `UpdateDoc` is
called exactly once (and sends at most one request); if it fails the response
is the 502 one, if it succeeds the response is 200 with the resource, the id,
status "synced" and a message naming the id. -/
theorem C6_one_pass_outcomes {σ : Type} (B : Backend σ) (c : Client) (w : World σ)
    (idParam : String) (id : Int) (hp : ParseInt idParam = .ok id) :
    (∀ err, err ≠ GoError.ErrNoRows → (GetBook B w id).1 = .error err →
      (HandleBook B c w idParam).1 = respondError 500 "database error" ∧
      (HandleBook B c w idParam).2.trace = w.trace ++ [Event.query "books" id]) ∧
    (∀ book, (GetBook B w id).1 = .ok book →
      ((HandleBook B c w idParam).2.trace
          = w.trace ++ [Event.query "books" id, Event.updateDoc "books" (bookDoc book)] ∨
        (HandleBook B c w idParam).2.trace
          = w.trace ++ [Event.query "books" id, Event.updateDoc "books" (bookDoc book),
              Event.post (c.baseURL ++ "/" ++ "books" ++ "/update?commit=true")
                [bookDoc book]]) ∧
      (∀ e, (UpdateDoc B c (GetBook B w id).2 "books" (bookDoc book)).1 = some e →
        (HandleBook B c w idParam).1 = respondError 502 "failed to update solr") ∧
      ((UpdateDoc B c (GetBook B w id).2 "books" (bookDoc book)).1 = none →
        (HandleBook B c w idParam).1 =
          { contentType := "application/json", status := 200,
            body := [ ("resource", .str "books"), ("id", .int id),
                      ("status", .str "synced"),
                      ("message",
                        .str ("Book " ++ formatInt id ++ " updated and synced to Solr")) ] })) ∧
    (∀ err, err ≠ GoError.ErrNoRows → (GetElectronic B w id).1 = .error err →
      (HandleElectronic B c w idParam).1 = respondError 500 "database error" ∧
      (HandleElectronic B c w idParam).2.trace
        = w.trace ++ [Event.query "electronics" id]) ∧
    (∀ electronic, (GetElectronic B w id).1 = .ok electronic →
      ((HandleElectronic B c w idParam).2.trace
          = w.trace ++ [Event.query "electronics" id,
              Event.updateDoc "electronics" (electronicDoc electronic)] ∨
        (HandleElectronic B c w idParam).2.trace
          = w.trace ++ [Event.query "electronics" id,
              Event.updateDoc "electronics" (electronicDoc electronic),
              Event.post (c.baseURL ++ "/" ++ "electronics" ++ "/update?commit=true")
                [electronicDoc electronic]]) ∧
      (∀ e, (UpdateDoc B c (GetElectronic B w id).2 "electronics"
          (electronicDoc electronic)).1 = some e →
        (HandleElectronic B c w idParam).1 = respondError 502 "failed to update solr") ∧
      ((UpdateDoc B c (GetElectronic B w id).2 "electronics"
          (electronicDoc electronic)).1 = none →
        (HandleElectronic B c w idParam).1 =
          { contentType := "application/json", status := 200,
            body := [ ("resource", .str "electronics"), ("id", .int id),
                      ("status", .str "synced"),
                      ("message",
                        .str ("Electronic " ++ formatInt id
                          ++ " updated and synced to Solr")) ] })) := by
  refine ⟨?_, ?_, ?_, ?_⟩
  · intro err hne hg
    rw [HandleBook_store_error B c w idParam id err hp hg, GetBook_world]
    simp [hne]
  · intro book hg
    rw [HandleBook_store_ok B c w idParam id book hp hg]
    refine ⟨?_, ?_, ?_⟩
    · rcases UpdateDoc_trace B c (GetBook B w id).2 "books" (bookDoc book) with h | h
      · left
        show (UpdateDoc B c (GetBook B w id).2 "books" (bookDoc book)).2.trace = _
        rw [h, GetBook_world]
        simp
      · right
        show (UpdateDoc B c (GetBook B w id).2 "books" (bookDoc book)).2.trace = _
        rw [h, GetBook_world]
        simp
    · intro e he
      simp only [he]
    · intro he
      simp only [he, respondJSON, syncedBody, String.append_assoc]
      rfl
  · intro err hne hg
    rw [HandleElectronic_store_error B c w idParam id err hp hg, GetElectronic_world]
    simp [hne]
  · intro electronic hg
    rw [HandleElectronic_store_ok B c w idParam id electronic hp hg]
    refine ⟨?_, ?_, ?_⟩
    · rcases UpdateDoc_trace B c (GetElectronic B w id).2 "electronics"
        (electronicDoc electronic) with h | h
      · left
        show (UpdateDoc B c (GetElectronic B w id).2 "electronics" (electronicDoc electronic)).2.trace = _
        rw [h, GetElectronic_world]
        simp
      · right
        show (UpdateDoc B c (GetElectronic B w id).2 "electronics" (electronicDoc electronic)).2.trace = _
        rw [h, GetElectronic_world]
        simp
    · intro e he
      simp only [he]
    · intro he
      simp only [he, respondJSON, syncedBody, String.append_assoc]
      rfl

theorem C6_one_pass_outcomes_witness :
    ParseInt "42" = .ok 42 ∧
    ((HandleBook brokenStore solrClient ⟨(), []⟩ "42").1
        = respondError 500 "database error" ∧
      (HandleBook brokenStore solrClient ⟨(), []⟩ "42").2.trace
        = [] ++ [Event.query "books" 42]) ∧
    (∀ e, (UpdateDoc rejectingIndex solrClient (GetBook rejectingIndex ⟨(), []⟩ 42).2 "books"
        (bookDoc { ID := 42, Title := "Dune", Author := "Herbert", Genre := "SciFi",
                   Price := ⟨4621813488089437307⟩, InStock := true, ISBN := "123",
                   Description := "", UpdatedAt := 0 })).1 = some e →
      (HandleBook rejectingIndex solrClient ⟨(), []⟩ "42").1
        = respondError 502 "failed to update solr") ∧
    ((UpdateDoc memBackend solrClient (GetBook memBackend ⟨duneMem, []⟩ 42).2 "books"
        (bookDoc { ID := 42, Title := "Dune", Author := "Herbert", Genre := "SciFi",
                   Price := ⟨4621813488089437307⟩, InStock := true, ISBN := "123",
                   Description := "", UpdatedAt := 0 })).1 = none →
      (HandleBook memBackend solrClient ⟨duneMem, []⟩ "42").1 =
        { contentType := "application/json", status := 200,
          body := [ ("resource", .str "books"), ("id", .int 42),
                    ("status", .str "synced"),
                    ("message",
                      .str ("Book " ++ formatInt 42 ++ " updated and synced to Solr")) ] }) :=
  ⟨by decide,
   (C6_one_pass_outcomes brokenStore solrClient ⟨(), []⟩ "42" 42 (by decide)).1
      (.msg "dial tcp: connection refused") (by decide) rfl,
   ((C6_one_pass_outcomes rejectingIndex solrClient ⟨(), []⟩ "42" 42 (by decide)).2.1
      _ rfl).2.1,
   ((C6_one_pass_outcomes memBackend solrClient ⟨duneMem, []⟩ "42" 42 (by decide)).2.1
      _ rfl).2.2⟩

/-- C7, as stated, fails for the `specs` column of electronics: a NULL `specs`
is returned as the two-character text of an empty JSON object, not as the empty
string, and so is the document field `specs_txt`. -/
theorem C7_null_specs_counterexample :
    bareElectronicRow.specs = none ∧
    (GetElectronic
        (scripted .noRows (.row bareElectronicRow) (.affected 0) (.affected 0)
          (.response 200 (.ok 0))) ⟨(), []⟩ 7).1
      = .ok { ID := 7, Name := "Phone", Manufacturer := "Acme",
              Price := ⟨4621813488089437307⟩, InStock := false, Specs := "\x7b\x7d",
              Description := "", UpdatedAt := 0 } ∧
    ("\x7b\x7d" : String) ≠ "" ∧
    (electronicDoc { ID := 7, Name := "Phone", Manufacturer := "Acme",
                     Price := ⟨4621813488089437307⟩, InStock := false,
                     Specs := "\x7b\x7d", Description := "", UpdatedAt := 0 }).get?
        "specs_txt"
      = some (.str "\x7b\x7d") := by
  decide

/-- C7, amended: for every row fetched by `GetBook` or `GetElectronic` (with an
`in_stock` that fits the `uint8` it is scanned into), a NULL `description` is
returned as the empty string and a NULL `specs` as the text of an empty JSON
object, a non-NULL text is returned unchanged, and the document carries the
returned text, never null, in `description` and `specs_txt`. -/
theorem C7_null_text_coalesced {σ : Type} (B : Backend σ) (w : World σ) (id : Int) :
    (∀ r, (B.queryBook w.env id).2 = RowResult.row r → 0 ≤ r.in_stock ∧ r.in_stock ≤ 255 →
      ∃ book, (GetBook B w id).1 = .ok book ∧
        (r.description = none → book.Description = "") ∧
        (∀ d, r.description = some d → book.Description = d) ∧
        (bookDoc book).get? "description" = some (.str book.Description)) ∧
    (∀ r, (B.queryElectronic w.env id).2 = RowResult.row r →
      0 ≤ r.in_stock ∧ r.in_stock ≤ 255 →
      ∃ e, (GetElectronic B w id).1 = .ok e ∧
        (r.description = none → e.Description = "") ∧
        (∀ d, r.description = some d → e.Description = d) ∧
        (r.specs = none → e.Specs = "\x7b\x7d") ∧
        (∀ d, r.specs = some d → e.Specs = d) ∧
        (electronicDoc e).get? "description" = some (.str e.Description) ∧
        (electronicDoc e).get? "specs_txt" = some (.str e.Specs)) := by
  refine ⟨?_, ?_⟩
  · intro r hq hfit
    refine ⟨_, GetBook_row B w id r hq hfit, ?_, ?_, ?_⟩
    · intro h
      simp [h, COALESCE]
    · intro d h
      simp [h, COALESCE]
    · simp [bookDoc, Doc.get?, List.lookup]
  · intro r hq hfit
    refine ⟨_, GetElectronic_row B w id r hq hfit, ?_, ?_, ?_, ?_, ?_, ?_⟩
    · intro h
      simp [h, COALESCE]
    · intro d h
      simp [h, COALESCE]
    · intro h
      simp [h, COALESCE]
    · intro d h
      simp [h, COALESCE]
    · simp [electronicDoc, Doc.get?, List.lookup]
    · simp [electronicDoc, Doc.get?, List.lookup]

theorem C7_null_text_coalesced_witness :
    (rejectingIndex.queryBook () 42).2 = RowResult.row duneRow ∧
    ((0 : Int) ≤ duneRow.in_stock ∧ duneRow.in_stock ≤ 255) ∧
    (∃ book, (GetBook rejectingIndex ⟨(), []⟩ 42).1 = .ok book ∧
        (duneRow.description = none → book.Description = "") ∧
        (∀ d, duneRow.description = some d → book.Description = d) ∧
        (bookDoc book).get? "description" = some (.str book.Description)) ∧
    (∃ e, (GetElectronic rejectingIndex ⟨(), []⟩ 7).1 = .ok e ∧
        (bareElectronicRow.description = none → e.Description = "") ∧
        (∀ d, bareElectronicRow.description = some d → e.Description = d) ∧
        (bareElectronicRow.specs = none → e.Specs = "\x7b\x7d") ∧
        (∀ d, bareElectronicRow.specs = some d → e.Specs = d) ∧
        (electronicDoc e).get? "description" = some (.str e.Description) ∧
        (electronicDoc e).get? "specs_txt" = some (.str e.Specs)) :=
  ⟨rfl, by decide,
   (C7_null_text_coalesced rejectingIndex ⟨(), []⟩ 42).1 duneRow rfl (by decide),
   (C7_null_text_coalesced rejectingIndex ⟨(), []⟩ 7).2 bareElectronicRow rfl (by decide)⟩

/-- C8, as stated, fails: the parameters "0" and "-5" are accepted by the
parse, the handlers do not answer 400, and the store is queried with the id 0
and with the id -5. -/
theorem C8_zero_and_negative_counterexample :
    (HandleBook emptyStore solrClient ⟨(), []⟩ "0").1 = respondError 404 "book not found" ∧
    queriedIds (HandleBook emptyStore solrClient ⟨(), []⟩ "0").2.trace = [0] ∧
    (HandleElectronic emptyStore solrClient ⟨(), []⟩ "-5").1
      = respondError 404 "electronic not found" ∧
    queriedIds (HandleElectronic emptyStore solrClient ⟨(), []⟩ "-5").2.trace = [-5] := by
  decide

/-- C8, amended: every id parameter that `strconv.ParseInt` rejects is answered
with 400 "invalid id parameter" by both handlers before the store is reached
(the state and the trace are untouched); `ParseInt` rejects every parameter
that is not an optional sign followed by at least one decimal digit and nothing
else, and every such numeral outside the `int64` range.  Every numeral inside
the range, zero and negative ones included, is accepted, and the store is then
queried with exactly the parsed id. -/
theorem C8_unparsable_id_rejected {σ : Type} (B : Backend σ) (c : Client) (w : World σ)
    (idParam : String) :
    (∀ e, ParseInt idParam = .error e →
      HandleBook B c w idParam = (respondError 400 "invalid id parameter", w) ∧
      HandleElectronic B c w idParam = (respondError 400 "invalid id parameter", w)) ∧
    ((unsignedPart idParam = [] ∨
        (∃ ch ∈ unsignedPart idParam, ¬ ('0' ≤ ch ∧ ch ≤ '9')) ∨
        numeralValue idParam < -(2 : Int) ^ 63 ∨ (2 : Int) ^ 63 ≤ numeralValue idParam) →
      ∃ e, ParseInt idParam = .error e) ∧
    ((unsignedPart idParam ≠ [] ∧ (∀ ch ∈ unsignedPart idParam, '0' ≤ ch ∧ ch ≤ '9') ∧
        -(2 : Int) ^ 63 ≤ numeralValue idParam ∧ numeralValue idParam < (2 : Int) ^ 63) →
      ParseInt idParam = .ok (numeralValue idParam)) ∧
    (∀ id, ParseInt idParam = .ok id →
      queriedIds (HandleBook B c w idParam).2.trace = queriedIds w.trace ++ [id] ∧
      queriedIds (HandleElectronic B c w idParam).2.trace = queriedIds w.trace ++ [id]) := by
  refine ⟨?_, ?_, ?_, ?_⟩
  · intro e hp
    exact ⟨HandleBook_parse_error B c w idParam e hp,
      HandleElectronic_parse_error B c w idParam e hp⟩
  · intro hbad
    cases hp : ParseInt idParam with
    | error e => exact ⟨e, rfl⟩
    | ok id =>
      exfalso
      obtain ⟨h1, h2, h3, h4, h5⟩ := ParseInt_ok idParam id hp
      rcases hbad with h | ⟨ch, hch, hnd⟩ | h | h
      · exact h1 h
      · exact hnd (h2 ch hch)
      · rw [← h3] at h
        omega
      · rw [← h3] at h
        omega
  · rintro ⟨h1, h2, h3, h4⟩
    exact ParseInt_complete idParam h1 h2 h3 h4
  · intro id hp
    refine ⟨?_, ?_⟩
    · cases hg : (GetBook B w id).1 with
      | error err =>
        rw [HandleBook_store_error B c w idParam id err hp hg, GetBook_world]
        simp [queriedIds_append, queriedIds]
      | ok book =>
        rw [HandleBook_store_ok B c w idParam id book hp hg, UpdateDoc_queried, GetBook_world]
        simp [queriedIds_append, queriedIds]
    · cases hg : (GetElectronic B w id).1 with
      | error err =>
        rw [HandleElectronic_store_error B c w idParam id err hp hg, GetElectronic_world]
        simp [queriedIds_append, queriedIds]
      | ok electronic =>
        rw [HandleElectronic_store_ok B c w idParam id electronic hp hg, UpdateDoc_queried,
          GetElectronic_world]
        simp [queriedIds_append, queriedIds]

theorem C8_unparsable_id_rejected_witness :
    ParseInt "12a" = .error .ErrSyntax ∧
    (HandleBook emptyStore solrClient ⟨(), []⟩ "12a"
        = (respondError 400 "invalid id parameter", ⟨(), []⟩) ∧
      HandleElectronic emptyStore solrClient ⟨(), []⟩ "12a"
        = (respondError 400 "invalid id parameter", ⟨(), []⟩)) ∧
    ParseInt "-5" = .ok (-5) ∧
    (queriedIds (HandleBook emptyStore solrClient ⟨(), []⟩ "-5").2.trace
        = queriedIds [] ++ [-5] ∧
      queriedIds (HandleElectronic emptyStore solrClient ⟨(), []⟩ "-5").2.trace
        = queriedIds [] ++ [-5]) :=
  ⟨by decide,
   (C8_unparsable_id_rejected emptyStore solrClient ⟨(), []⟩ "12a").1 .ErrSyntax (by decide),
   by decide,
   (C8_unparsable_id_rejected emptyStore solrClient ⟨(), []⟩ "-5").2.2.2 (-5) (by decide)⟩

/-- C9: for every book and electronic row, a stored `in_stock` of 0 yields a
record with `InStock` false and the document field `inStock` false, a stored 1
yields true and true; and the document field `inStock` is always a boolean. -/
theorem C9_in_stock_boolean {σ : Type} (B : Backend σ) (w : World σ) (id : Int) :
    (∀ r, (B.queryBook w.env id).2 = RowResult.row r →
      (r.in_stock = 0 → ∃ book, (GetBook B w id).1 = .ok book ∧ book.InStock = false ∧
        (bookDoc book).get? "inStock" = some (.bool false)) ∧
      (r.in_stock = 1 → ∃ book, (GetBook B w id).1 = .ok book ∧ book.InStock = true ∧
        (bookDoc book).get? "inStock" = some (.bool true))) ∧
    (∀ r, (B.queryElectronic w.env id).2 = RowResult.row r →
      (r.in_stock = 0 → ∃ e, (GetElectronic B w id).1 = .ok e ∧ e.InStock = false ∧
        (electronicDoc e).get? "inStock" = some (.bool false)) ∧
      (r.in_stock = 1 → ∃ e, (GetElectronic B w id).1 = .ok e ∧ e.InStock = true ∧
        (electronicDoc e).get? "inStock" = some (.bool true))) ∧
    (∀ book : Book, (bookDoc book).get? "inStock" = some (.bool book.InStock)) ∧
    (∀ e : Electronic, (electronicDoc e).get? "inStock" = some (.bool e.InStock)) := by
  refine ⟨?_, ?_, ?_, ?_⟩
  · intro r hq
    refine ⟨?_, ?_⟩
    · intro h0
      refine ⟨_, GetBook_row B w id r hq (by omega), ?_, ?_⟩
      · simp [h0]
      · simp [bookDoc, Doc.get?, List.lookup, h0]
    · intro h1
      refine ⟨_, GetBook_row B w id r hq (by omega), ?_, ?_⟩
      · simp [h1]
      · simp [bookDoc, Doc.get?, List.lookup, h1]
  · intro r hq
    refine ⟨?_, ?_⟩
    · intro h0
      refine ⟨_, GetElectronic_row B w id r hq (by omega), ?_, ?_⟩
      · simp [h0]
      · simp [electronicDoc, Doc.get?, List.lookup, h0]
    · intro h1
      refine ⟨_, GetElectronic_row B w id r hq (by omega), ?_, ?_⟩
      · simp [h1]
      · simp [electronicDoc, Doc.get?, List.lookup, h1]
  · intro book
    simp [bookDoc, Doc.get?, List.lookup]
  · intro e
    simp [electronicDoc, Doc.get?, List.lookup]

theorem C9_in_stock_boolean_witness :
    (rejectingIndex.queryBook () 42).2 = RowResult.row duneRow ∧ duneRow.in_stock = 1 ∧
    (∃ book, (GetBook rejectingIndex ⟨(), []⟩ 42).1 = .ok book ∧ book.InStock = true ∧
        (bookDoc book).get? "inStock" = some (.bool true)) ∧
    (rejectingIndex.queryElectronic () 7).2 = RowResult.row bareElectronicRow ∧
    bareElectronicRow.in_stock = 0 ∧
    (∃ e, (GetElectronic rejectingIndex ⟨(), []⟩ 7).1 = .ok e ∧ e.InStock = false ∧
        (electronicDoc e).get? "inStock" = some (.bool false)) :=
  ⟨rfl, rfl,
   ((C9_in_stock_boolean rejectingIndex ⟨(), []⟩ 42).1 duneRow rfl).2 rfl,
   rfl, rfl,
   ((C9_in_stock_boolean rejectingIndex ⟨(), []⟩ 7).2.1 bareElectronicRow rfl).1 rfl⟩

/-- C10, as stated, fails: the write affects one row, the re-read finds no row
(the row was deleted in between), and `GetAndUpdateBook` returns the re-read's
`sql.ErrNoRows`, which the handlers' test classifies as not found, not as a
store error. -/
theorem C10_reread_no_rows_counterexample :
    (vanishingRow.execBook () ("Description added by solr-updater at "
        ++ "2025-01-01T00:00:00Z") 42).2 = ExecResult.affected 1 ∧
    (GetBook vanishingRow
        ⟨(), [Event.exec "books"
          ("Description added by solr-updater at " ++ "2025-01-01T00:00:00Z") 42]⟩ 42).1
      = .error .ErrNoRows ∧
    (GetAndUpdateBook vanishingRow ⟨(), []⟩ "2025-01-01T00:00:00Z" 42).1
      = .error .ErrNoRows ∧
    isNotFound GoError.ErrNoRows = true ∧
    (GetAndUpdateElectronic vanishingRow ⟨(), []⟩ "2025-01-01T00:00:00Z" 42).1
      = .error .ErrNoRows :=
  ⟨rfl, by decide, by decide, by decide, by decide⟩

/-- C10, amended: `GetAndUpdateBook` / `GetAndUpdateElectronic` return
`sql.ErrNoRows` (not found) without performing any read when the write affects
zero rows.  When the write affects a non-zero number of rows they return
exactly the outcome of a fresh `GetBook` / `GetElectronic` of that id; if that
re-read fails, the result is the re-read's error unchanged, never success: a
store error for every error other than `sql.ErrNoRows`, and not found when the
re-read itself reports no rows. -/
theorem C10_get_and_update {σ : Type} (B : Backend σ) (w : World σ) (timestamp : String)
    (id : Int) :
    ((B.execBook w.env ("Description added by solr-updater at " ++ timestamp) id).2
        = ExecResult.affected 0 →
      GetAndUpdateBook B w timestamp id =
        (.error .ErrNoRows,
          { env := (B.execBook w.env
              ("Description added by solr-updater at " ++ timestamp) id).1,
            trace := w.trace ++ [Event.exec "books"
              ("Description added by solr-updater at " ++ timestamp) id] }) ∧
      queriedIds (GetAndUpdateBook B w timestamp id).2.trace = queriedIds w.trace) ∧
    (∀ rows, rows ≠ 0 →
      (B.execBook w.env ("Description added by solr-updater at " ++ timestamp) id).2
        = ExecResult.affected rows →
      GetAndUpdateBook B w timestamp id =
        GetBook B
          { env := (B.execBook w.env
              ("Description added by solr-updater at " ++ timestamp) id).1,
            trace := w.trace ++ [Event.exec "books"
              ("Description added by solr-updater at " ++ timestamp) id] } id ∧
      ∀ err, (GetBook B
          { env := (B.execBook w.env
              ("Description added by solr-updater at " ++ timestamp) id).1,
            trace := w.trace ++ [Event.exec "books"
              ("Description added by solr-updater at " ++ timestamp) id] } id).1
            = .error err →
        (GetAndUpdateBook B w timestamp id).1 = .error err ∧
        (err ≠ GoError.ErrNoRows → isNotFound err = false) ∧
        (err = GoError.ErrNoRows → isNotFound err = true)) ∧
    ((B.execElectronic w.env ("Description added by solr-updater at " ++ timestamp) id).2
        = ExecResult.affected 0 →
      GetAndUpdateElectronic B w timestamp id =
        (.error .ErrNoRows,
          { env := (B.execElectronic w.env
              ("Description added by solr-updater at " ++ timestamp) id).1,
            trace := w.trace ++ [Event.exec "electronics"
              ("Description added by solr-updater at " ++ timestamp) id] }) ∧
      queriedIds (GetAndUpdateElectronic B w timestamp id).2.trace = queriedIds w.trace) ∧
    (∀ rows, rows ≠ 0 →
      (B.execElectronic w.env ("Description added by solr-updater at " ++ timestamp) id).2
        = ExecResult.affected rows →
      GetAndUpdateElectronic B w timestamp id =
        GetElectronic B
          { env := (B.execElectronic w.env
              ("Description added by solr-updater at " ++ timestamp) id).1,
            trace := w.trace ++ [Event.exec "electronics"
              ("Description added by solr-updater at " ++ timestamp) id] } id ∧
      ∀ err, (GetElectronic B
          { env := (B.execElectronic w.env
              ("Description added by solr-updater at " ++ timestamp) id).1,
            trace := w.trace ++ [Event.exec "electronics"
              ("Description added by solr-updater at " ++ timestamp) id] } id).1
            = .error err →
        (GetAndUpdateElectronic B w timestamp id).1 = .error err ∧
        (err ≠ GoError.ErrNoRows → isNotFound err = false) ∧
        (err = GoError.ErrNoRows → isNotFound err = true)) := by
  refine ⟨?_, ?_, ?_, ?_⟩
  · intro hx
    refine ⟨?_, ?_⟩
    · simp [GetAndUpdateBook, hx]
    · simp [GetAndUpdateBook, hx, queriedIds_append, queriedIds]
  · intro rows hne hx
    have h : GetAndUpdateBook B w timestamp id = GetBook B
        { env := (B.execBook w.env
            ("Description added by solr-updater at " ++ timestamp) id).1,
          trace := w.trace ++ [Event.exec "books"
            ("Description added by solr-updater at " ++ timestamp) id] } id := by
      simp [GetAndUpdateBook, hx, hne]
    refine ⟨h, ?_⟩
    intro err herr
    rw [h]
    refine ⟨herr, ?_, ?_⟩
    · intro hn
      simp [isNotFound, hn]
    · intro hn
      simp [isNotFound, hn]
  · intro hx
    refine ⟨?_, ?_⟩
    · simp [GetAndUpdateElectronic, hx]
    · simp [GetAndUpdateElectronic, hx, queriedIds_append, queriedIds]
  · intro rows hne hx
    have h : GetAndUpdateElectronic B w timestamp id = GetElectronic B
        { env := (B.execElectronic w.env
            ("Description added by solr-updater at " ++ timestamp) id).1,
          trace := w.trace ++ [Event.exec "electronics"
            ("Description added by solr-updater at " ++ timestamp) id] } id := by
      simp [GetAndUpdateElectronic, hx, hne]
    refine ⟨h, ?_⟩
    intro err herr
    rw [h]
    refine ⟨herr, ?_, ?_⟩
    · intro hn
      simp [isNotFound, hn]
    · intro hn
      simp [isNotFound, hn]

theorem C10_get_and_update_witness :
    (emptyStore.execBook () ("Description added by solr-updater at "
        ++ "2025-01-01T00:00:00Z") 42).2 = ExecResult.affected 0 ∧
    (GetAndUpdateBook emptyStore ⟨(), []⟩ "2025-01-01T00:00:00Z" 42 =
        (.error .ErrNoRows,
          { env := (emptyStore.execBook ()
              ("Description added by solr-updater at " ++ "2025-01-01T00:00:00Z") 42).1,
            trace := [] ++ [Event.exec "books"
              ("Description added by solr-updater at " ++ "2025-01-01T00:00:00Z") 42] }) ∧
      queriedIds (GetAndUpdateBook emptyStore ⟨(), []⟩ "2025-01-01T00:00:00Z" 42).2.trace
        = queriedIds []) ∧
    (flakyStore.execBook () ("Description added by solr-updater at "
        ++ "2025-01-01T00:00:00Z") 42).2 = ExecResult.affected 1 ∧
    ((GetAndUpdateBook flakyStore ⟨(), []⟩ "2025-01-01T00:00:00Z" 42).1
        = .error (.msg "invalid connection") ∧
      (GoError.msg "invalid connection" ≠ GoError.ErrNoRows →
        isNotFound (.msg "invalid connection") = false) ∧
      (GoError.msg "invalid connection" = GoError.ErrNoRows →
        isNotFound (.msg "invalid connection") = true)) :=
  ⟨rfl,
   (C10_get_and_update emptyStore ⟨(), []⟩ "2025-01-01T00:00:00Z" 42).1 rfl,
   rfl,
   ((C10_get_and_update flakyStore ⟨(), []⟩ "2025-01-01T00:00:00Z" 42).2.1 1
      (by decide) rfl).2 (.msg "invalid connection") rfl⟩

end SolrSync
